import Mathlib

/-! Knights Khayal backend: a shallow embedding of the request handlers.

The handlers of `src/server/index.js`, `src/server/passwordResetRoutes.js` and
`src/server/emailRoutes.js` are written as pure functions over explicit state:
a MongoDB collection is a `List` of documents in insertion order, the current
time, random values and the results of the email provider are arguments, and a
handler returns its HTTP response together with the new state.

JavaScript values that matter to control flow are kept: a `Date` is its time
value (`none` is the `NaN` of an invalid date), `undefined` is `none`. A JavaScript
string is a `String`; the routes test and replace ASCII characters only. The libraries
the routes call (`bcrypt`, `jsonwebtoken`, the `Date` parser, `parseInt`, the ObjectId
cast, the upload middleware, the validation that `save` runs) are arguments or small
models of the calls the routes make.
-/

namespace KnightsKhayal

/-! ## Performances (`src/server/index.js`) -/

/-- A document of the `Performance` collection (`performanceSchema`). -/
structure Performance where
  _id : String
  title : String
  date : String
  venue : String
  city : String
  image : String
  description : String
  ticketLink : String
  active : Bool
  deriving DecidableEq, Repr

/-- The time value of a JavaScript `Date`: milliseconds, or `none` for the
`NaN` of an invalid date. -/
abbrev TimeValue := Option Int

/-- The comparison `new Date(perf.date) >= currentDate`: both sides become numbers,
and every comparison with `NaN` is `false`. -/
def dateGe (d : TimeValue) (currentDate : Int) : Bool :=
  match d with
  | some t => decide (currentDate ≤ t)
  | none => false

/-- The comparison `new Date(perf.date) < currentDate`. -/
def dateLt (d : TimeValue) (currentDate : Int) : Bool :=
  match d with
  | some t => decide (t < currentDate)
  | none => false

/-- The subtraction `new Date(a.date) - new Date(b.date)`: `NaN` if either is invalid. -/
def dateSub (a b : TimeValue) : Option Int :=
  match a, b with
  | some x, some y => some (x - y)
  | _, _ => none

/-- One insertion step of the stable sort: `a`, which stood before every element of
the sorted tail, goes before the first `b` the comparator does not order before it.
A comparator result of `NaN` counts as `+0`, as `Array.prototype.sort` reads it. -/
def sortInsert {α : Type} (cmp : α → α → Option Int) (a : α) : List α → List α
  | [] => [a]
  | b :: l => if (cmp a b).getD 0 ≤ 0 then a :: b :: l else b :: sortInsert cmp a l

/-- The method `Array.prototype.sort(cmp)`: a stable sort by the comparator. -/
def jsSort {α : Type} (cmp : α → α → Option Int) : List α → List α
  | [] => []
  | a :: l => sortInsert cmp a (jsSort cmp l)

/-- The body of the response of `GET /api/performances`. -/
structure PerformanceListing where
  upcoming : List Performance
  previous : List Performance
  deriving DecidableEq, Repr

/-- The handler `GET /api/performances`: `parseDate` is the `Date` constructor on a string,
`store` the `Performance` collection, `currentDate` the time value of `new Date()`. -/
def getPerformances (parseDate : String → TimeValue) (store : List Performance)
    (currentDate : Int) : PerformanceListing :=
  let performances := store.filter (fun perf => perf.active)
  let upcomingPerformances :=
    jsSort (fun a b => dateSub (parseDate a.date) (parseDate b.date))
      (performances.filter (fun perf => dateGe (parseDate perf.date) currentDate))
  let previousPerformances :=
    jsSort (fun a b => dateSub (parseDate b.date) (parseDate a.date))
      (performances.filter (fun perf => dateLt (parseDate perf.date) currentDate))
  { upcoming := upcomingPerformances, previous := previousPerformances }

/-- The records of `l` are in ascending order of their parsed dates, which are all valid. -/
def DateAscending (parseDate : String → TimeValue) (l : List Performance) : Prop :=
  l.Pairwise (fun a b => ∃ x y, parseDate a.date = some x ∧ parseDate b.date = some y ∧ x ≤ y)

/-- The records of `l` are in descending order of their parsed dates, which are all valid. -/
def DateDescending (parseDate : String → TimeValue) (l : List Performance) : Prop :=
  l.Pairwise (fun a b => ∃ x y, parseDate a.date = some x ∧ parseDate b.date = some y ∧ y ≤ x)

/-- A table of the `Date` constructor on the strings of the examples: UTC midnight for the
three ISO dates, an invalid date for a string that is no date, such as `TBD`. -/
def exampleParseDate (s : String) : TimeValue :=
  if s = "2020-01-01" then some 1577836800000
  else if s = "2999-01-01" then some 32472144000000
  else if s = "2024-06-15" then some 1718409600000
  else none

/-- An example record with the given id, date and active flag. -/
def examplePerformance (id date : String) (active : Bool) : Performance :=
  { _id := id, title := "Spring Show", date := date, venue := "Hall", city := "Orlando",
    image := "/uploads/a.jpg", description := "d", ticketLink := "", active := active }

/-! ## The email templates

The fixed text of the three template literals, cut at their substitutions. -/

/-- Template text number 0 of the literal notificationHtml, between its substitutions. -/
def notificationText0 : String :=
  "\n" ++
  "      <!DOCTYPE html>\n" ++
  "      <html>\n" ++
  "        <head>\n" ++
  "          <meta charset=\"utf-8\">\n" ++
  "          <meta name=\"viewport\" content=\"width=device-width, initial-scale=1.0\">\n" ++
  "          <title>New Contact Form Submission</title>\n" ++
  "          <style>\n" ++
  "            body \x7b\n" ++
  "              font-family: \x27Helvetica\x27, \x27Arial\x27, sans-serif;\n" ++
  "              line-height: 1.6;\n" ++
  "              color: #333333;\n" ++
  "              background-color: #f9f8ff;\n" ++
  "              margin: 0;\n" ++
  "              padding: 0;\n" ++
  "            \x7d\n" ++
  "            .email-container \x7b\n" ++
  "              max-width: 600px;\n" ++
  "              margin: 0 auto;\n" ++
  "              background-color: #ffffff;\n" ++
  "              border-radius: 8px;\n" ++
  "              overflow: hidden;\n" ++
  "              box-shadow: 0 4px 20px rgba(123, 104, 238, 0.15);\n" ++
  "            \x7d\n" ++
  "            .email-header \x7b\n" ++
  "              background: linear-gradient(135deg, #7b68ee 0%, #6a5acd 100%);\n" ++
  "              color: white;\n" ++
  "              padding: 20px;\n" ++
  "              text-align: center;\n" ++
  "            \x7d\n" ++
  "            .email-header h1 \x7b\n" ++
  "              margin: 0;\n" ++
  "              font-size: 24px;\n" ++
  "              font-weight: 700;\n" ++
  "            \x7d\n" ++
  "            .email-body \x7b\n" ++
  "              padding: 30px;\n" ++
  "            \x7d\n" ++
  "            .email-body h2 \x7b\n" ++
  "              color: #7b68ee;\n" ++
  "              margin-top: 0;\n" ++
  "              font-size: 20px;\n" ++
  "              border-bottom: 2px solid #ff8c69;\n" ++
  "              padding-bottom: 10px;\n" ++
  "              margin-bottom: 20px;\n" ++
  "            \x7d\n" ++
  "            .contact-details \x7b\n" ++
  "              background-color: #f5f7fa;\n" ++
  "              padding: 15px;\n" ++
  "              border-radius: 8px;\n" ++
  "              margin-bottom: 20px;\n" ++
  "            \x7d\n" ++
  "            .contact-details p \x7b\n" ++
  "              margin: 10px 0;\n" ++
  "            \x7d\n" ++
  "            .contact-details strong \x7b\n" ++
  "              color: #7b68ee;\n" ++
  "            \x7d\n" ++
  "            .message-content \x7b\n" ++
  "              background-color: #f9f8ff;\n" ++
  "              padding: 15px;\n" ++
  "              border-radius: 8px;\n" ++
  "              border-left: 4px solid #7b68ee;\n" ++
  "            \x7d\n" ++
  "            .email-footer \x7b\n" ++
  "              background-color: #f0f0f0;\n" ++
  "              padding: 20px;\n" ++
  "              text-align: center;\n" ++
  "              font-size: 14px;\n" ++
  "              color: #666666;\n" ++
  "            \x7d\n" ++
  "          </style>\n" ++
  "        </head>\n" ++
  "        <body>\n" ++
  "          <div class=\"email-container\">\n" ++
  "            <div class=\"email-header\">\n" ++
  "              <h1>New Contact Form Submission</h1>\n" ++
  "            </div>\n" ++
  "            <div class=\"email-body\">\n" ++
  "              <h2>Someone has sent you a message</h2>\n" ++
  "              <div class=\"contact-details\">\n" ++
  "                <p><strong>Name:</strong> "

/-- Template text number 1 of the literal notificationHtml, between its substitutions. -/
def notificationText1 : String :=
  "</p>\n" ++
  "                <p><strong>Email:</strong> "

/-- Template text number 2 of the literal notificationHtml, between its substitutions. -/
def notificationText2 : String :=
  "</p>\n" ++
  "                <p><strong>Subject:</strong> "

/-- Template text number 3 of the literal notificationHtml, between its substitutions. -/
def notificationText3 : String :=
  "</p>\n" ++
  "              </div>\n" ++
  "              <h2>Message</h2>\n" ++
  "              <div class=\"message-content\">\n" ++
  "                <p>"

/-- Template text number 4 of the literal notificationHtml, between its substitutions. -/
def notificationText4 : String :=
  "</p>\n" ++
  "              </div>\n" ++
  "            </div>\n" ++
  "            <div class=\"email-footer\">\n" ++
  "              <p>This message was sent from Knights Khayal.</p>\n" ++
  "            </div>\n" ++
  "          </div>\n" ++
  "        </body>\n" ++
  "      </html>\n" ++
  "    "

/-- Template text number 0 of the literal confirmationHtml, between its substitutions. -/
def confirmationText0 : String :=
  "\n" ++
  "      <!DOCTYPE html>\n" ++
  "      <html>\n" ++
  "        <head>\n" ++
  "          <meta charset=\"utf-8\">\n" ++
  "          <meta name=\"viewport\" content=\"width=device-width, initial-scale=1.0\">\n" ++
  "          <title>Thank you for contacting Knights Khayal</title>\n" ++
  "          <style>\n" ++
  "            body \x7b\n" ++
  "              font-family: \x27Helvetica\x27, \x27Arial\x27, sans-serif;\n" ++
  "              line-height: 1.6;\n" ++
  "              color: #333333;\n" ++
  "              background-color: #f9f8ff;\n" ++
  "              margin: 0;\n" ++
  "              padding: 0;\n" ++
  "            \x7d\n" ++
  "            .email-container \x7b\n" ++
  "              max-width: 600px;\n" ++
  "              margin: 0 auto;\n" ++
  "              background-color: #ffffff;\n" ++
  "              border-radius: 8px;\n" ++
  "              overflow: hidden;\n" ++
  "              box-shadow: 0 4px 20px rgba(123, 104, 238, 0.15);\n" ++
  "            \x7d\n" ++
  "            .email-header \x7b\n" ++
  "              background: linear-gradient(135deg, #7b68ee 0%, #6a5acd 100%);\n" ++
  "              color: white;\n" ++
  "              padding: 30px 20px;\n" ++
  "              text-align: center;\n" ++
  "            \x7d\n" ++
  "            .email-header h1 \x7b\n" ++
  "              margin: 0;\n" ++
  "              font-size: 28px;\n" ++
  "              font-weight: 700;\n" ++
  "              font-family: \x27Georgia\x27, serif;\n" ++
  "            \x7d\n" ++
  "            .email-header p \x7b\n" ++
  "              margin: 10px 0 0;\n" ++
  "              font-style: italic;\n" ++
  "              opacity: 0.9;\n" ++
  "            \x7d\n" ++
  "            .email-body \x7b\n" ++
  "              padding: 30px;\n" ++
  "            \x7d\n" ++
  "            .greeting \x7b\n" ++
  "              font-size: 18px;\n" ++
  "              color: #7b68ee;\n" ++
  "              margin-bottom: 20px;\n" ++
  "            \x7d\n" ++
  "            .message-content \x7b\n" ++
  "              background-color: #f9f8ff;\n" ++
  "              padding: 20px;\n" ++
  "              border-radius: 8px;\n" ++
  "              border-left: 4px solid #ff8c69;\n" ++
  "              margin: 20px 0;\n" ++
  "            \x7d\n" ++
  "            .message-content h3 \x7b\n" ++
  "              margin-top: 0;\n" ++
  "              color: #7b68ee;\n" ++
  "            \x7d\n" ++
  "            .signature \x7b\n" ++
  "              margin-top: 30px;\n" ++
  "              padding-top: 20px;\n" ++
  "              border-top: 1px solid #eee;\n" ++
  "            \x7d\n" ++
  "            .signature p \x7b\n" ++
  "              margin: 5px 0;\n" ++
  "            \x7d\n" ++
  "            .social-links \x7b\n" ++
  "              margin-top: 20px;\n" ++
  "              text-align: center;\n" ++
  "            \x7d\n" ++
  "            .social-links a \x7b\n" ++
  "              display: inline-block;\n" ++
  "              margin: 0 10px;\n" ++
  "              color: #7b68ee;\n" ++
  "              text-decoration: none;\n" ++
  "            \x7d\n" ++
  "            .email-footer \x7b\n" ++
  "              background-color: #f0f0f0;\n" ++
  "              padding: 20px;\n" ++
  "              text-align: center;\n" ++
  "              font-size: 14px;\n" ++
  "              color: #666666;\n" ++
  "            \x7d\n" ++
  "          </style>\n" ++
  "        </head>\n" ++
  "        <body>\n" ++
  "          <div class=\"email-container\">\n" ++
  "            <div class=\"email-header\">\n" ++
  "              <h1>Knights Khayal</h1>\n" ++
  "              <p>Dreaming in melody...</p>\n" ++
  "            </div>\n" ++
  "            <div class=\"email-body\">\n" ++
  "              <p class=\"greeting\">Dear "

/-- Template text number 1 of the literal confirmationHtml, between its substitutions. -/
def confirmationText1 : String :=
  ",</p>\n" ++
  "              \n" ++
  "              <p>Thank you for reaching out to us! We have received your message and will get back to you as soon as possible.</p>\n" ++
  "              \n" ++
  "              <div class=\"message-content\">\n" ++
  "                <h3>Your Message</h3>\n" ++
  "                <p><strong>Subject:</strong> "

/-- Template text number 2 of the literal confirmationHtml, between its substitutions. -/
def confirmationText2 : String :=
  "</p>\n" ++
  "                <p>"

/-- Template text number 3 of the literal confirmationHtml, between its substitutions. -/
def confirmationText3 : String :=
  "</p>\n" ++
  "              </div>\n" ++
  "              \n" ++
  "              <p>We appreciate your interest in Knights Khayal and look forward to connecting with you.</p>\n" ++
  "              \n" ++
  "              <div class=\"signature\">\n" ++
  "                <p><strong>Best regards,</strong></p>\n" ++
  "                <p>The Knights Khayal Team</p>\n" ++
  "              </div>\n" ++
  "              \n" ++
  "              <div class=\"social-links\">\n" ++
  "                <a href=\"https://facebook.com\">Facebook</a> | \n" ++
  "                <a href=\"https://instagram.com\">Instagram</a> | \n" ++
  "                <a href=\"https://youtube.com\">YouTube</a> | \n" ++
  "                <a href=\"https://spotify.com\">Spotify</a>\n" ++
  "              </div>\n" ++
  "            </div>\n" ++
  "            <div class=\"email-footer\">\n" ++
  "              <p>© "

/-- Template text number 4 of the literal confirmationHtml, between its substitutions. -/
def confirmationText4 : String :=
  " Knights Khayal. All rights reserved.</p>\n" ++
  "              <p>Orlando, FL, USA</p>\n" ++
  "            </div>\n" ++
  "          </div>\n" ++
  "        </body>\n" ++
  "      </html>\n" ++
  "    "

/-- Template text number 0 of the literal resetEmailHtml, between its substitutions. -/
def resetEmailText0 : String :=
  "\n" ++
  "      <!DOCTYPE html>\n" ++
  "      <html>\n" ++
  "        <head>\n" ++
  "          <meta charset=\"utf-8\">\n" ++
  "          <meta name=\"viewport\" content=\"width=device-width, initial-scale=1.0\">\n" ++
  "          <title>Reset Your Password</title>\n" ++
  "          <style>\n" ++
  "            body \x7b\n" ++
  "              font-family: \x27Helvetica\x27, \x27Arial\x27, sans-serif;\n" ++
  "              line-height: 1.6;\n" ++
  "              color: #333333;\n" ++
  "              background-color: #f9f8ff;\n" ++
  "              margin: 0;\n" ++
  "              padding: 0;\n" ++
  "            \x7d\n" ++
  "            .email-container \x7b\n" ++
  "              max-width: 600px;\n" ++
  "              margin: 0 auto;\n" ++
  "              background-color: #ffffff;\n" ++
  "              border-radius: 8px;\n" ++
  "              overflow: hidden;\n" ++
  "              box-shadow: 0 4px 20px rgba(123, 104, 238, 0.15);\n" ++
  "            \x7d\n" ++
  "            .email-header \x7b\n" ++
  "              background: linear-gradient(135deg, #7b68ee 0%, #6a5acd 100%);\n" ++
  "              color: white;\n" ++
  "              padding: 30px 20px;\n" ++
  "              text-align: center;\n" ++
  "            \x7d\n" ++
  "            .email-header h1 \x7b\n" ++
  "              margin: 0;\n" ++
  "              font-size: 24px;\n" ++
  "              font-weight: 700;\n" ++
  "            \x7d\n" ++
  "            .email-body \x7b\n" ++
  "              padding: 30px;\n" ++
  "            \x7d\n" ++
  "            .greeting \x7b\n" ++
  "              font-size: 18px;\n" ++
  "              margin-bottom: 20px;\n" ++
  "            \x7d\n" ++
  "            .reset-button \x7b\n" ++
  "              display: block;\n" ++
  "              width: 100%;\n" ++
  "              max-width: 280px;\n" ++
  "              margin: 30px auto;\n" ++
  "              padding: 12px 24px;\n" ++
  "              background-color: #7b68ee;\n" ++
  "              color: white;\n" ++
  "              text-align: center;\n" ++
  "              text-decoration: none;\n" ++
  "              border-radius: 5px;\n" ++
  "              font-weight: 600;\n" ++
  "              font-size: 16px;\n" ++
  "            \x7d\n" ++
  "            .warning \x7b\n" ++
  "              background-color: #fff8e6;\n" ++
  "              border-left: 4px solid #ff8c69;\n" ++
  "              padding: 15px;\n" ++
  "              margin: 20px 0;\n" ++
  "              font-size: 14px;\n" ++
  "            \x7d\n" ++
  "            .email-footer \x7b\n" ++
  "              background-color: #f0f0f0;\n" ++
  "              padding: 20px;\n" ++
  "              text-align: center;\n" ++
  "              font-size: 14px;\n" ++
  "              color: #666666;\n" ++
  "            \x7d\n" ++
  "          </style>\n" ++
  "        </head>\n" ++
  "        <body>\n" ++
  "          <div class=\"email-container\">\n" ++
  "            <div class=\"email-header\">\n" ++
  "              <h1>Reset Your Password</h1>\n" ++
  "            </div>\n" ++
  "            <div class=\"email-body\">\n" ++
  "              <p class=\"greeting\">Hello "

/-- Template text number 1 of the literal resetEmailHtml, between its substitutions. -/
def resetEmailText1 : String :=
  ",</p>\n" ++
  "              \n" ++
  "              <p>We received a request to reset your password for the Knights Khayal admin panel. Click the button below to set a new password:</p>\n" ++
  "              \n" ++
  "              <a href=\""

/-- Template text number 2 of the literal resetEmailHtml, between its substitutions. -/
def resetEmailText2 : String :=
  "\" class=\"reset-button\">Reset Password</a>\n" ++
  "              \n" ++
  "              <p>If you didn\x27t request a password reset, you can safely ignore this email. The link will expire in 1 hour.</p>\n" ++
  "              \n" ++
  "              <div class=\"warning\">\n" ++
  "                <p>For security reasons, please do not share this link with anyone.</p>\n" ++
  "              </div>\n" ++
  "            </div>\n" ++
  "            <div class=\"email-footer\">\n" ++
  "              <p>Â© "

/-- Template text number 3 of the literal resetEmailHtml, between its substitutions. -/
def resetEmailText3 : String :=
  " Knights Khayal. All rights reserved.</p>\n" ++
  "            </div>\n" ++
  "          </div>\n" ++
  "        </body>\n" ++
  "      </html>\n" ++
  "    "

/-! ## HTTP responses -/

/-- A value of a JSON response body; `data` is what the email provider handed back. -/
inductive JsonValue where
  | str (s : String)
  | bool (b : Bool)
  | data (d : Option String)
  | dataPair (notification confirmation : Option String)
  deriving DecidableEq, Repr

/-- The call `res.status(status).json(body)`, the body as its list of fields. -/
structure Response where
  status : Nat
  body : List (String × JsonValue)
  deriving DecidableEq, Repr

/-- The value of a field of a JSON body, `none` when the body has no such field. -/
def Response.field (r : Response) (name : String) : Option JsonValue :=
  (r.body.find? (fun kv => kv.1 = name)).map (fun kv => kv.2)

/-! ## The email provider (`resend.emails.send`) -/

/-- The argument of `resend.emails.send`. -/
structure EmailMessage where
  sender : String
  recipient : String
  subject : String
  html : String
  deriving DecidableEq, Repr

/-- What awaiting `resend.emails.send` gives: an object with `data` and `error`
(`error` is `null` on success, an error object on failure), or a thrown exception. -/
inductive SendOutcome where
  | returned (data : Option String) (error : Option String)
  | threw
  deriving DecidableEq, Repr

/-! ## The contact form (`src/server/emailRoutes.js`) -/

/-- The method `String.prototype.replace` with a global one-character pattern:
every occurrence of `c` becomes `rep`. -/
def replaceChar (c : Char) (rep : List Char) : List Char → List Char
  | [] => []
  | x :: xs => if x = c then rep ++ replaceChar c rep xs else x :: replaceChar c rep xs

/-- The apostrophe, character 39. -/
def apostrophe : Char := Char.ofNat 39

/-- The five chained replacements of `sanitizeHtml`, on the characters of the string. -/
def sanitizeChars (str : List Char) : List Char :=
  replaceChar apostrophe "&#39;".data
    (replaceChar '"' "&quot;".data
      (replaceChar '>' "&gt;".data
        (replaceChar '<' "&lt;".data
          (replaceChar '&' "&amp;".data str))))

/-- The function `sanitizeHtml` of the contact-form route. -/
def sanitizeHtml (str : String) : String :=
  String.mk (sanitizeChars str.data)

/-- The expression `sanitizedMessage.replace(/\n/g, '<br/>')`. -/
def lineBreaks (sanitizedMessage : String) : String :=
  String.mk (replaceChar '\n' "<br/>".data sanitizedMessage.data)

/-- Every character of a string replaced by a list of characters, in one pass. -/
def expandChars (f : Char → List Char) : List Char → List Char
  | [] => []
  | x :: xs => f x ++ expandChars f xs

/-- What `sanitizeHtml` makes of one character: its entity, or the character itself. -/
def escapeChar (c : Char) : List Char :=
  if c = '&' then "&amp;".data
  else if c = '<' then "&lt;".data
  else if c = '>' then "&gt;".data
  else if c = '"' then "&quot;".data
  else if c = apostrophe then "&#39;".data
  else [c]

/-- The five entities of `sanitizeHtml`, without their leading ampersand. -/
def entityTails : List (List Char) :=
  ["amp;".data, "lt;".data, "gt;".data, "quot;".data, "#39;".data]

/-- A piece of a template literal: fixed text of the template, or a substituted value. -/
inductive TemplatePart where
  | text (s : String)
  | value (s : String)
  deriving DecidableEq, Repr

/-- The string a piece stands for. -/
def TemplatePart.render : TemplatePart → String
  | .text s => s
  | .value s => s

/-- The string a template literal evaluates to. -/
def renderTemplate (parts : List TemplatePart) : String :=
  parts.foldr (fun p acc => p.render ++ acc) ""

/-- The substituted values of a template literal, in order. -/
def templateValues : List TemplatePart → List String
  | [] => []
  | .text _ :: ps => templateValues ps
  | .value s :: ps => s :: templateValues ps

/-- The template literal `notificationHtml`. -/
def notificationHtml (sanitizedName sanitizedEmail sanitizedSubject sanitizedMessage : String) :
    List TemplatePart :=
  [.text notificationText0, .value sanitizedName, .text notificationText1,
   .value sanitizedEmail, .text notificationText2, .value sanitizedSubject,
   .text notificationText3, .value (lineBreaks sanitizedMessage), .text notificationText4]

/-- The template literal `confirmationHtml`; `fullYear` is `new Date().getFullYear()`. -/
def confirmationHtml (sanitizedName sanitizedSubject sanitizedMessage : String) (fullYear : Nat) :
    List TemplatePart :=
  [.text confirmationText0, .value sanitizedName, .text confirmationText1,
   .value sanitizedSubject, .text confirmationText2, .value (lineBreaks sanitizedMessage),
   .text confirmationText3, .value (toString fullYear), .text confirmationText4]

/-- The body of a contact-form request; a field that is absent is `none`. -/
structure ContactBody where
  name : Option String
  email : Option String
  subject : Option String
  message : Option String
  deriving DecidableEq, Repr

/-- The test `!x` on a body field that is a string or absent: true when it is
`undefined` or the empty string. -/
def falsy (x : Option String) : Bool :=
  match x with
  | none => true
  | some s => decide (s = "")

/-- The notification message, to the fixed business address. -/
def notificationMessage (name email subject message : String) : EmailMessage :=
  { sender := "onboarding@resend.dev",
    recipient := "abhinav.kotta@gmail.com",
    subject := "[Website Contact] " ++ sanitizeHtml subject,
    html := renderTemplate (notificationHtml (sanitizeHtml name) (sanitizeHtml email)
      (sanitizeHtml subject) (sanitizeHtml message)) }

/-- The confirmation message, to the submitter. -/
def confirmationMessage (name email subject message : String) (fullYear : Nat) : EmailMessage :=
  { sender := "onboarding@resend.dev",
    recipient := email,
    subject := "Thank you for contacting Knights Khayal",
    html := renderTemplate (confirmationHtml (sanitizeHtml name) (sanitizeHtml subject)
      (sanitizeHtml message) fullYear) }

/-- The handler `POST /send-email`. `send n msg` is the outcome of the call number `n`
(from 0) of `resend.emails.send` in this request. The result is the response and the
messages whose send was attempted, in order. -/
def sendEmail (body : ContactBody) (fullYear : Nat) (send : Nat → EmailMessage → SendOutcome) :
    Response × List EmailMessage :=
  if falsy body.name || falsy body.email || falsy body.subject || falsy body.message then
    (⟨400, [("success", .bool false), ("error", .str "Missing required fields")]⟩, [])
  else
    let name := body.name.getD ""
    let email := body.email.getD ""
    let subject := body.subject.getD ""
    let message := body.message.getD ""
    let notification := notificationMessage name email subject message
    match send 0 notification with
    | .threw =>
      (⟨500, [("success", .bool false), ("error", .str "Internal server error")]⟩, [notification])
    | .returned notificationData notificationError =>
      if notificationError.isSome then
        (⟨500, [("success", .bool false), ("error", .str "Failed to send email notification")]⟩,
          [notification])
      else
        let confirmation := confirmationMessage name email subject message fullYear
        match send 1 confirmation with
        | .threw =>
          (⟨500, [("success", .bool false), ("error", .str "Internal server error")]⟩,
            [notification, confirmation])
        | .returned confirmationData confirmationError =>
          if confirmationError.isSome then
            (⟨200, [("success", .bool true),
                    ("warning", .str "Notification sent, but confirmation email failed"),
                    ("data", .data notificationData)]⟩, [notification, confirmation])
          else
            (⟨200, [("success", .bool true), ("message", .str "Emails sent successfully"),
                    ("data", .dataPair notificationData confirmationData)]⟩,
              [notification, confirmation])

/-! ## Library functions taken as arguments -/

/-- The two functions of the `bcrypt` library the routes call: `hash plaintext salt`
(the salt is the random part of `bcrypt.hash(plaintext, 10)`) and `compare plaintext hash`. -/
structure Bcrypt where
  hash : String → Nat → String
  compare : String → String → Bool

/-- A stand-in for `bcrypt` whose hash is the plaintext itself: `compare` is exact,
nothing is hidden. It instantiates the library in examples. -/
def plainBcrypt : Bcrypt :=
  { hash := fun plaintext _ => plaintext, compare := fun plaintext hash => decide (plaintext = hash) }

/-! ## Password reset (`src/server/passwordResetRoutes.js`) -/

/-- Modelled from the spec: the Admin model (`./models/Admin`), a stored admin account with
id, username, password hash and email. -/
structure Admin where
  _id : String
  username : String
  password : String
  email : String
  deriving DecidableEq, Repr

/-- A document of the `ResetToken` collection (`resetTokenSchema`): `token` is the hash. -/
structure ResetToken where
  userId : String
  token : String
  createdAt : Int
  deriving DecidableEq, Repr

/-- The two collections of the password-reset routes, documents in insertion order. -/
structure Db where
  admins : List Admin
  resetTokens : List ResetToken
  deriving DecidableEq, Repr

/-- The expression `process.env.FRONTEND_URL || 'http://localhost:5173'`. -/
def frontendUrl (env : Option String) : String :=
  match env with
  | some url => if url = "" then "http://localhost:5173" else url
  | none => "http://localhost:5173"

/-- The template literal `resetEmailHtml`. -/
def resetEmailHtml (username resetUrl : String) (fullYear : Nat) : List TemplatePart :=
  [.text resetEmailText0, .value username, .text resetEmailText1, .value resetUrl,
   .text resetEmailText2, .value (toString fullYear), .text resetEmailText3]

/-- The reset message sent to the admin. -/
def resetMessage (admin : Admin) (resetUrl : String) (fullYear : Nat) : EmailMessage :=
  { sender := "onboarding@resend.dev",
    recipient := admin.email,
    subject := "Reset Your Knights Khayal Admin Password",
    html := renderTemplate (resetEmailHtml admin.username resetUrl fullYear) }

/-- What a reset request draws from its environment: the 32 random bytes in hex
(`resetToken`), the bcrypt salt, `Date.now()`, `FRONTEND_URL`, the current year. -/
structure ResetEntropy where
  resetToken : String
  salt : Nat
  now : Int
  frontendEnv : Option String
  fullYear : Nat

/-- The handler `POST /admin/reset-password` (the spec's `requestReset`). The result is
the database after the request, the response, and the messages whose send was attempted. -/
def requestReset (bcrypt : Bcrypt) (db : Db) (email : Option String) (e : ResetEntropy)
    (send : EmailMessage → SendOutcome) : Db × Response × List EmailMessage :=
  if falsy email then
    (db, ⟨400, [("message", .str "Email is required")]⟩, [])
  else
    match db.admins.find? (fun a => a.email = email.getD "") with
    | none =>
      (db, ⟨200, [("message",
        .str "If your email is registered, you will receive reset instructions")]⟩, [])
    | some admin =>
      let afterDelete := db.resetTokens.filter (fun t => ¬ t.userId = admin._id)
      let hash := bcrypt.hash e.resetToken e.salt
      let db1 : Db :=
        { db with resetTokens := afterDelete ++ [⟨admin._id, hash, e.now⟩] }
      let resetUrl :=
        frontendUrl e.frontendEnv ++ "/admin/reset-password/" ++ admin._id ++ "/" ++ e.resetToken
      let message := resetMessage admin resetUrl e.fullYear
      match send message with
      | .threw => (db1, ⟨500, [("message", .str "Internal server error")]⟩, [message])
      | .returned _ _ =>
        (db1, ⟨200, [("message", .str "Password reset email sent successfully")]⟩, [message])

/-- The update `Admin.updateOne({ _id }, { $set: { password } })`: the first admin with
that id gets the password, no admin with that id changes nothing. -/
def updatePassword (id hashedPassword : String) : List Admin → List Admin
  | [] => []
  | a :: as =>
    if a._id = id then { a with password := hashedPassword } :: as
    else a :: updatePassword id hashedPassword as

/-- The deletion `ResetToken.deleteOne({ userId })`: the first record of that user goes. -/
def deleteOne (userId : String) : List ResetToken → List ResetToken
  | [] => []
  | t :: ts => if t.userId = userId then ts else t :: deleteOne userId ts

/-- The handler `POST /admin/reset-password/:userId/:token` (the spec's `resetPassword`).
`castObjectId` is the cast of the URL segment to a stored id that the queries make (a
string that is no id makes the query throw); `password` is absent when the body has none,
and `bcrypt.hash` then throws. -/
def resetPassword (bcrypt : Bcrypt) (castObjectId : String → Option String) (db : Db)
    (userId token : String) (password : Option String) (salt : Nat) : Db × Response :=
  match castObjectId userId with
  | none => (db, ⟨500, [("message", .str "Internal server error")]⟩)
  | some id =>
    match db.resetTokens.find? (fun t => t.userId = id) with
    | none => (db, ⟨400, [("message", .str "Invalid or expired reset token")]⟩)
    | some resetToken =>
      if ¬ bcrypt.compare token resetToken.token = true then
        (db, ⟨400, [("message", .str "Invalid or expired reset token")]⟩)
      else
        match password with
        | none => (db, ⟨500, [("message", .str "Internal server error")]⟩)
        | some password =>
          let hashedPassword := bcrypt.hash password salt
          ({ admins := updatePassword id hashedPassword db.admins,
             resetTokens := deleteOne id db.resetTokens },
            ⟨200, [("message", .str "Password reset successful")]⟩)

/-- The response `InvalidOrExpiredToken`. -/
def invalidOrExpiredToken : Response :=
  ⟨400, [("message", .str "Invalid or expired reset token")]⟩

/-- At most one token record per admin id. -/
def AtMostOneToken (db : Db) : Prop :=
  ∀ userId : String, (db.resetTokens.filter (fun t => t.userId = userId)).length ≤ 1

/-- The TTL index of `resetTokenSchema` (`expires: 3600`): the database removes, in the
background, the records created 3600 seconds or more before the clock `now` (ms). -/
def expireTokens (now : Int) (db : Db) : Db :=
  { db with resetTokens := db.resetTokens.filter (fun t => now < t.createdAt + 3600000) }

/-- The states the password-reset routes reach: from any admins and an empty token store,
by reset requests, password resets and TTL expiry, in any order and with any inputs. -/
inductive Reachable (bcrypt : Bcrypt) (castObjectId : String → Option String) : Db → Prop where
  | init (admins : List Admin) : Reachable bcrypt castObjectId ⟨admins, []⟩
  | request (db : Db) (email : Option String) (e : ResetEntropy)
      (send : EmailMessage → SendOutcome) :
      Reachable bcrypt castObjectId db →
      Reachable bcrypt castObjectId (requestReset bcrypt db email e send).1
  | reset (db : Db) (userId token : String) (password : Option String) (salt : Nat) :
      Reachable bcrypt castObjectId db →
      Reachable bcrypt castObjectId
        (resetPassword bcrypt castObjectId db userId token password salt).1
  | expire (db : Db) (now : Int) :
      Reachable bcrypt castObjectId db → Reachable bcrypt castObjectId (expireTokens now db)

/-! ## Authentication (`src/server/index.js`) -/

/-- The method `split(' ')` on the characters of a string: the segments between spaces. -/
def splitSpace : List Char → List (List Char)
  | [] => [[]]
  | c :: cs =>
    if c = ' ' then [] :: splitSpace cs
    else
      match splitSpace cs with
      | seg :: rest => (c :: seg) :: rest
      | [] => [[c]]

/-- The expression `authHeader && authHeader.split(' ')[1]`: `none` is `undefined`.
An absent header gives `undefined`, the empty header is falsy and gives itself (the
empty string), any other header gives its second segment, `undefined` if it has none. -/
def headerToken (authHeader : Option String) : Option String :=
  match authHeader with
  | none => none
  | some h => if h = "" then some "" else ((splitSpace h.data)[1]?).map String.mk

/-- The expression `process.env.JWT_SECRET || 'your_jwt_secret'`. -/
def jwtSecret (env : Option String) : String :=
  match env with
  | some s => if s = "" then "your_jwt_secret" else s
  | none => "your_jwt_secret"

/-- The decoded content of a token: the identity `login` embeds and the two
timestamps, in seconds of the JWT clock (`exp` is absent when a token sets none). -/
structure JwtPayload where
  id : String
  username : String
  iat : Nat
  exp : Option Nat
  deriving DecidableEq, Repr

/-- A token as a term: its payload and the secret its signature was made with. -/
structure SignedJwt where
  payload : JwtPayload
  key : String
  deriving DecidableEq, Repr

/-- The wire form of tokens in the `jsonwebtoken` library: `encode` writes a signed token
as a string, `decode` reads a string back (`none` for a string that is no token). -/
structure JwtCodec where
  encode : SignedJwt → String
  decode : String → Option SignedJwt

/-- The call `jwt.sign({ id, username }, secret, { expiresIn: '1h' })` at clock `now`:
`iat` is the clock, `exp` is 3600 seconds later. The clock of the library is in whole
seconds, `Math.floor(Date.now() / 1000)`, the unit of `iat` and `exp`. -/
def jwtSign (codec : JwtCodec) (id username secret : String) (now : Nat) : String :=
  codec.encode { payload := { id := id, username := username, iat := now, exp := some (now + 3600) },
                 key := secret }

/-- The errors of `jwt.verify`. -/
inductive JwtError where
  | mustBeProvided
  | malformed
  | invalidSignature
  | expired
  deriving DecidableEq, Repr

/-- The call `jwt.verify(token, secret, callback)` at clock `now` (seconds): the empty
string is refused, then the string must decode, its signature must be of `secret`, and
its `exp`, when it has one, must lie after the clock. -/
def jwtVerify (codec : JwtCodec) (token secret : String) (now : Nat) : Except JwtError JwtPayload :=
  if token = "" then .error .mustBeProvided
  else
    match codec.decode token with
    | none => .error .malformed
    | some jwt =>
      if ¬ jwt.key = secret then .error .invalidSignature
      else
        match jwt.payload.exp with
        | some exp => if exp ≤ now then .error .expired else .ok jwt.payload
        | none => .ok jwt.payload

/-- What the middleware does with a request: `next user` runs the downstream handler
with `req.user = user`, `sendStatus code` answers without running it. -/
inductive AuthOutcome where
  | next (user : JwtPayload)
  | sendStatus (status : Nat)
  deriving DecidableEq, Repr

/-- The middleware `authenticateToken`; `authHeader` is `req.headers['authorization']`. -/
def authenticateToken (codec : JwtCodec) (env : Option String) (authHeader : Option String)
    (now : Nat) : AuthOutcome :=
  match headerToken authHeader with
  | none => .sendStatus 401
  | some token =>
    match jwtVerify codec token (jwtSecret env) now with
    | .error _ => .sendStatus 403
    | .ok user => .next user

/-- The handler `POST /api/admin/login`; an absent `password` makes `bcrypt.compare` throw. -/
def login (bcrypt : Bcrypt) (codec : JwtCodec) (env : Option String) (admins : List Admin)
    (username : String) (password : Option String) (now : Nat) : Response :=
  match admins.find? (fun a => a.username = username) with
  | none => ⟨400, [("message", .str "Invalid credentials")]⟩
  | some admin =>
    match password with
    | none => ⟨500, [("message", .str "Server error")]⟩
    | some password =>
      if ¬ bcrypt.compare password admin.password = true then
        ⟨400, [("message", .str "Invalid credentials")]⟩
      else
        ⟨200, [("token", .str (jwtSign codec admin._id admin.username (jwtSecret env) now))]⟩

/-- An example admin. -/
def exampleAdmin : Admin :=
  { _id := "65f0c0ffee0123456789abcd", username := "admin", password := "admin123",
    email := "admin@example.com" }

/-- The token `login` signs for the example admin at clock 1000 with the default secret. -/
def exampleJwt : SignedJwt :=
  { payload := { id := "65f0c0ffee0123456789abcd", username := "admin", iat := 1000,
                 exp := some 4600 },
    key := "your_jwt_secret" }

/-- A one-entry wire form for examples: the example token is written `aaa.bbb.ccc`. -/
def exampleCodec : JwtCodec :=
  { encode := fun jwt => if jwt = exampleJwt then "aaa.bbb.ccc" else "xxx.yyy.zzz",
    decode := fun s => if s = "aaa.bbb.ccc" then some exampleJwt else none }

/-- An example database: the example admin, no reset token. -/
def exampleDb : Db := { admins := [exampleAdmin], resetTokens := [] }

/-- An example of what a reset request draws from its environment. -/
def exampleEntropy : ResetEntropy :=
  { resetToken := "5ec2e7", salt := 7, now := 1718409600000, frontendEnv := none, fullYear := 2024 }

/-- The example database after a first reset request whose secret is `01d5ec`. -/
def exampleDbIssued : Db :=
  (requestReset plainBcrypt exampleDb (some "admin@example.com")
    { exampleEntropy with resetToken := "01d5ec", now := 1718409000000 }
    (fun _ => .returned (some "id-1") none)).1

/-- An inverse of `sanitizeChars`, reading left to right: after `skip` characters to
pass over, each of the five entities is read back as its character and every other
character is kept. -/
def unescapeFrom : Nat → List Char → List Char
  | _, [] => []
  | skip + 1, _ :: rest => unescapeFrom skip rest
  | 0, c :: rest =>
    if c = '&' then
      if "amp;".data.isPrefixOf rest then '&' :: unescapeFrom 4 rest
      else if "lt;".data.isPrefixOf rest then '<' :: unescapeFrom 3 rest
      else if "gt;".data.isPrefixOf rest then '>' :: unescapeFrom 3 rest
      else if "quot;".data.isPrefixOf rest then '"' :: unescapeFrom 5 rest
      else if "#39;".data.isPrefixOf rest then apostrophe :: unescapeFrom 4 rest
      else c :: unescapeFrom 0 rest
    else c :: unescapeFrom 0 rest

/-- An inverse of `sanitizeHtml`. -/
def unescapeHtml (str : String) : String :=
  String.mk (unescapeFrom 0 str.data)

/-! ## Members, uploads and the admin write routes (`src/server/index.js`) -/

/-- A document of the `Member` collection (`memberSchema`). -/
structure Member where
  _id : String
  name : String
  instrument : String
  bio : String
  image : String
  isCaptain : Bool
  order : Int
  active : Bool
  deriving DecidableEq, Repr

/-- The file part a multipart request carries in its field `image`. -/
structure UploadedFile where
  contentType : String
  originalname : String
  size : Nat
  deriving DecidableEq, Repr

/-- The object `file` the upload library hands to `fileFilter` and to the storage:
`mimetype` is the library's reading of the declared content type of the part. -/
structure FileInfo where
  mimetype : String
  originalname : String
  deriving DecidableEq, Repr

/-- The function `fileFilter`: the file is kept for these three types. -/
def fileFilter (file : FileInfo) : Bool :=
  file.mimetype = "image/jpeg" || file.mimetype = "image/png" || file.mimetype = "image/webp"

/-- The limit `fileSize` of the upload, in bytes. -/
def fileSizeLimit : Nat := 1024 * 1024 * 5

/-- What the upload middleware draws from its libraries: `uuidv4()`, the function
`path.extname`, and `mimetype`, the type the upload library reads from a declared content
type (it lower-cases the type and leaves out its parameters). -/
structure Storage where
  uuid : String
  extname : String → String
  mimetype : String → String

/-- What `upload.single('image')` leaves for the handler: `req.file` with its stored
file name, no `req.file`, or an error that ends the request before the handler. -/
inductive UploadOutcome where
  | file (filename : String)
  | noFile
  | limitFileSize
  deriving DecidableEq, Repr

/-- The middleware `upload.single('image')` on the file of the field `image`, if the
request has one: a file the filter drops is left out, a kept file that reaches the size
limit is an error, a kept file below it is stored under
`uuidv4() + path.extname(file.originalname)`. -/
def uploadSingle (storage : Storage) (image : Option UploadedFile) : UploadOutcome :=
  match image with
  | none => .noFile
  | some part =>
    let file : FileInfo :=
      { mimetype := storage.mimetype part.contentType, originalname := part.originalname }
    if fileFilter file then
      if fileSizeLimit ≤ part.size then .limitFileSize
      else .file (storage.uuid ++ storage.extname file.originalname)
    else .noFile

/-- The response of an admin write route on documents of type `α`: the status the
authentication middleware sent, the status Express answers to the error of the upload
middleware (the handler did not run), a JSON message, the message of a failed `save` or query (the text is the
library's), or a JSON document. -/
inductive CrudResponse (α : Type) where
  | sendStatus (status : Nat)
  | uploadError (status : Nat)
  | message (status : Nat) (text : String)
  | errorMessage (status : Nat)
  | document (status : Nat) (doc : α)
  deriving DecidableEq, Repr

/-- The validator of a `String` path that is `required: true`: the value must be present
and not the empty string. -/
def requiredString (x : Option String) : Option String :=
  match x with
  | some s => if s = "" then none else some s
  | none => none

/-- The comparison `flag === 'true'` on a form field. -/
def isTrue (flag : Option String) : Bool :=
  decide (flag = some "true")

/-- The document `save` stores for a member, `none` when validation fails: `name`,
`instrument`, `bio` and `image` are required, `order` must be a number (`none` is `NaN`). -/
def memberDocument (id : String) (name instrument bio image : Option String)
    (isCaptain : Bool) (order : Option Int) (active : Bool) : Option Member :=
  match requiredString name, requiredString instrument, requiredString bio,
      requiredString image, order with
  | some name, some instrument, some bio, some image, some order =>
    some { _id := id, name := name, instrument := instrument, bio := bio, image := image,
           isCaptain := isCaptain, order := order, active := active }
  | _, _, _, _, _ => none

/-- The document `save` stores for a performance, `none` when validation fails: `title`,
`date`, `venue`, `city`, `image` and `description` are required. -/
def performanceDocument (id : String) (title date venue city image description : Option String)
    (ticketLink : String) (active : Bool) : Option Performance :=
  match requiredString title, requiredString date, requiredString venue, requiredString city,
      requiredString image, requiredString description with
  | some title, some date, some venue, some city, some image, some description =>
    some { _id := id, title := title, date := date, venue := venue, city := city,
           image := image, description := description, ticketLink := ticketLink,
           active := active }
  | _, _, _, _, _, _ => none

/-- The text fields of a multipart member request; a field that is absent is `none`. -/
structure MemberBody where
  name : Option String
  instrument : Option String
  bio : Option String
  isCaptain : Option String
  order : Option String
  active : Option String
  deriving DecidableEq, Repr

/-- The text fields of a multipart performance request. -/
structure PerformanceBody where
  title : Option String
  date : Option String
  venue : Option String
  city : Option String
  description : Option String
  ticketLink : Option String
  active : Option String
  deriving DecidableEq, Repr

/-- The first document that satisfies `p` replaced by `doc`: the write of `save` on a
document that was read from the collection. -/
def replaceFirst {α : Type} (p : α → Bool) (doc : α) : List α → List α
  | [] => []
  | x :: xs => if p x then doc :: xs else x :: replaceFirst p doc xs

/-- The route `POST /api/admin/members`. `auth` is the outcome of `authenticateToken` on
the request, `parseInt` the JavaScript function (`none` is `NaN`), `newId` the id of the
new document. The new member has no `active` set and gets the schema default, `true`. -/
def createMember (auth : AuthOutcome) (storage : Storage) (parseInt : String → Option Int)
    (newId : String) (store : List Member) (image : Option UploadedFile) (body : MemberBody) :
    List Member × CrudResponse Member :=
  match auth with
  | .sendStatus status => (store, .sendStatus status)
  | .next _ =>
    match uploadSingle storage image with
    | .limitFileSize => (store, .uploadError 500)
    | .noFile => (store, .message 400 "Image is required")
    | .file filename =>
      let order := if falsy body.order then some 999 else parseInt (body.order.getD "")
      match memberDocument newId body.name body.instrument body.bio
          (some ("/uploads/" ++ filename)) (isTrue body.isCaptain) order true with
      | none => (store, .errorMessage 400)
      | some savedMember => (store ++ [savedMember], .document 201 savedMember)

/-- The route `PUT /api/admin/members/:id`; `castObjectId` is the cast of the URL segment
that `findById` makes. -/
def updateMember (auth : AuthOutcome) (storage : Storage) (parseInt : String → Option Int)
    (castObjectId : String → Option String) (store : List Member) (id : String)
    (image : Option UploadedFile) (body : MemberBody) : List Member × CrudResponse Member :=
  match auth with
  | .sendStatus status => (store, .sendStatus status)
  | .next _ =>
    match uploadSingle storage image with
    | .limitFileSize => (store, .uploadError 500)
    | upload =>
      match castObjectId id with
      | none => (store, .errorMessage 400)
      | some oid =>
        match store.find? (fun m => m._id = oid) with
        | none => (store, .message 404 "Member not found")
        | some member =>
          let order :=
            if falsy body.order then some member.order else parseInt (body.order.getD "")
          let image :=
            match upload with
            | .file filename => "/uploads/" ++ filename
            | _ => member.image
          match memberDocument member._id body.name body.instrument body.bio (some image)
              (isTrue body.isCaptain) order (isTrue body.active) with
          | none => (store, .errorMessage 400)
          | some updatedMember =>
            (replaceFirst (fun m => m._id = oid) updatedMember store,
              .document 200 updatedMember)

/-- The expression `ticketLink || ''`. -/
def ticketLinkOrEmpty (ticketLink : Option String) : String :=
  if falsy ticketLink then "" else ticketLink.getD ""

/-- The route `POST /api/admin/performances`. -/
def createPerformance (auth : AuthOutcome) (storage : Storage) (newId : String)
    (store : List Performance) (image : Option UploadedFile) (body : PerformanceBody) :
    List Performance × CrudResponse Performance :=
  match auth with
  | .sendStatus status => (store, .sendStatus status)
  | .next _ =>
    match uploadSingle storage image with
    | .limitFileSize => (store, .uploadError 500)
    | .noFile => (store, .message 400 "Image is required")
    | .file filename =>
      match performanceDocument newId body.title body.date body.venue body.city
          (some ("/uploads/" ++ filename)) body.description
          (ticketLinkOrEmpty body.ticketLink) (isTrue body.active) with
      | none => (store, .errorMessage 400)
      | some savedPerformance => (store ++ [savedPerformance], .document 201 savedPerformance)

/-- The route `PUT /api/admin/performances/:id`. -/
def updatePerformance (auth : AuthOutcome) (storage : Storage)
    (castObjectId : String → Option String) (store : List Performance) (id : String)
    (image : Option UploadedFile) (body : PerformanceBody) :
    List Performance × CrudResponse Performance :=
  match auth with
  | .sendStatus status => (store, .sendStatus status)
  | .next _ =>
    match uploadSingle storage image with
    | .limitFileSize => (store, .uploadError 500)
    | upload =>
      match castObjectId id with
      | none => (store, .errorMessage 400)
      | some oid =>
        match store.find? (fun p => p._id = oid) with
        | none => (store, .message 404 "Performance not found")
        | some performance =>
          let image :=
            match upload with
            | .file filename => "/uploads/" ++ filename
            | _ => performance.image
          match performanceDocument performance._id body.title body.date body.venue body.city
              (some image) body.description (ticketLinkOrEmpty body.ticketLink)
              (isTrue body.active) with
          | none => (store, .errorMessage 400)
          | some updatedPerformance =>
            (replaceFirst (fun p => p._id = oid) updatedPerformance store,
              .document 200 updatedPerformance)

/-- An example of the upload environment; the two functions are the tables of
`path.extname` and of the library's reading of a content type on the examples. -/
def exampleStorage : Storage :=
  { uuid := "0b2c4a1e-7d3f-4e5a-9c8b-1f2e3d4c5b6a",
    extname := fun name => if name = "ann.jpg" then ".jpg" else if name = "cv.pdf" then ".pdf"
      else "",
    mimetype := fun declared => if declared = "IMAGE/JPEG" then "image/jpeg" else declared }

/-- A table of `parseInt` on the strings of the examples. -/
def exampleParseInt (s : String) : Option Int :=
  if s = "1" then some 1 else if s = "5" then some 5 else if s = "7" then some 7 else none

/-- An example member with the given display order. -/
def exampleMember (order : Int) : Member :=
  { _id := "65f0c0ffee0123456789ab01", name := "Ann", instrument := "Sitar", bio := "b",
    image := "/uploads/old.jpg", isCaptain := false, order := order, active := true }

/-- An example member request with the given `order` field. -/
def exampleMemberBody (order : Option String) : MemberBody :=
  { name := some "Ann", instrument := some "Tabla", bio := some "bio", isCaptain := some "true",
    order := order, active := some "true" }

/-- An example performance request with the given `active` field. -/
def examplePerformanceBody (active : Option String) : PerformanceBody :=
  { title := some "Spring Show", date := some "2999-01-01", venue := some "Hall",
    city := some "Orlando", description := some "d", ticketLink := none, active := active }

/-- An example upload with the given declared type. -/
def exampleUpload (contentType : String) : UploadedFile :=
  { contentType := contentType, originalname := "ann.jpg", size := 20000 }

/-! ## Theorems -/

theorem perm_sortInsert {α : Type} (cmp : α → α → Option Int) (a : α) (l : List α) :
    (sortInsert cmp a l).Perm (a :: l) := by
  induction l with
  | nil => simp [sortInsert]
  | cons b l ih =>
    simp only [sortInsert]
    split
    · exact List.Perm.refl _
    · exact ((List.Perm.cons b ih).trans (List.Perm.swap a b l))

theorem perm_jsSort {α : Type} (cmp : α → α → Option Int) (l : List α) :
    (jsSort cmp l).Perm l := by
  induction l with
  | nil => simp [jsSort]
  | cons a l ih =>
    simp only [jsSort]
    exact (perm_sortInsert cmp a _).trans (List.Perm.cons a ih)

theorem mem_jsSort {α : Type} (cmp : α → α → Option Int) (l : List α) (x : α) :
    x ∈ jsSort cmp l ↔ x ∈ l :=
  (perm_jsSort cmp l).mem_iff

theorem pairwise_sortInsert {α : Type} (cmp : α → α → Option Int) (key : α → Int) (a : α)
    (l : List α) (hcmp : ∀ b ∈ l, cmp a b = some (key a - key b))
    (hl : l.Pairwise (fun x y => key x ≤ key y)) :
    (sortInsert cmp a l).Pairwise (fun x y => key x ≤ key y) := by
  induction l with
  | nil => simp [sortInsert]
  | cons b l ih =>
    have hab := hcmp b (List.mem_cons_self b l)
    have hb : ∀ y ∈ l, key b ≤ key y := fun y hy => List.rel_of_pairwise_cons hl hy
    have hl' := List.Pairwise.of_cons hl
    simp only [sortInsert, hab, Option.getD_some]
    split
    · rename_i h
      refine List.Pairwise.cons ?_ hl
      intro y hy
      rcases List.mem_cons.1 hy with rfl | hy
      · omega
      · have := hb y hy
        omega
    · rename_i h
      refine List.Pairwise.cons ?_ (ih (fun c hc => hcmp c (List.mem_cons_of_mem b hc)) hl')
      intro y hy
      rcases List.mem_cons.1 ((perm_sortInsert cmp a l).mem_iff.1 hy) with rfl | hy
      · omega
      · exact hb y hy

theorem pairwise_jsSort {α : Type} (cmp : α → α → Option Int) (key : α → Int) (l : List α)
    (hcmp : ∀ a ∈ l, ∀ b ∈ l, cmp a b = some (key a - key b)) :
    (jsSort cmp l).Pairwise (fun x y => key x ≤ key y) := by
  induction l with
  | nil => simp [jsSort]
  | cons a l ih =>
    simp only [jsSort]
    apply pairwise_sortInsert
    · intro b hb
      exact hcmp a (List.mem_cons_self a l) b (List.mem_cons_of_mem a ((mem_jsSort cmp l b).1 hb))
    · exact ih (fun x hx y hy => hcmp x (List.mem_cons_of_mem a hx) y (List.mem_cons_of_mem a hy))

theorem filter_active_filter (store : List Performance) (q : Performance → Bool) :
    (store.filter (fun perf => perf.active)).filter q
      = store.filter (fun perf => perf.active && q perf) := by
  rw [List.filter_filter]
  congr 1
  funext perf
  exact Bool.and_comm _ _

theorem mem_upcoming (parseDate : String → TimeValue) (store : List Performance)
    (currentDate : Int) (perf : Performance) :
    perf ∈ (getPerformances parseDate store currentDate).upcoming ↔
      perf ∈ store ∧ perf.active = true ∧ ∃ t, parseDate perf.date = some t ∧ currentDate ≤ t := by
  simp only [getPerformances, mem_jsSort, List.mem_filter, dateGe]
  constructor
  · rintro ⟨⟨hs, ha⟩, hd⟩
    refine ⟨hs, ha, ?_⟩
    cases h : parseDate perf.date with
    | none => simp [h] at hd
    | some t => exact ⟨t, rfl, by simpa [h] using hd⟩
  · rintro ⟨hs, ha, t, ht, hle⟩
    exact ⟨⟨hs, ha⟩, by simpa [ht] using hle⟩

theorem mem_previous (parseDate : String → TimeValue) (store : List Performance)
    (currentDate : Int) (perf : Performance) :
    perf ∈ (getPerformances parseDate store currentDate).previous ↔
      perf ∈ store ∧ perf.active = true ∧ ∃ t, parseDate perf.date = some t ∧ t < currentDate := by
  simp only [getPerformances, mem_jsSort, List.mem_filter, dateLt]
  constructor
  · rintro ⟨⟨hs, ha⟩, hd⟩
    refine ⟨hs, ha, ?_⟩
    cases h : parseDate perf.date with
    | none => simp [h] at hd
    | some t => exact ⟨t, rfl, by simpa [h] using hd⟩
  · rintro ⟨hs, ha, t, ht, hle⟩
    exact ⟨⟨hs, ha⟩, by simpa [ht] using hle⟩

theorem upcoming_ascending (parseDate : String → TimeValue) (store : List Performance)
    (currentDate : Int) :
    DateAscending parseDate (getPerformances parseDate store currentDate).upcoming := by
  have hvalid : ∀ p ∈ (getPerformances parseDate store currentDate).upcoming,
      ∃ t, parseDate p.date = some t := fun p hp =>
    let ⟨_, _, t, ht, _⟩ := (mem_upcoming parseDate store currentDate p).1 hp
    ⟨t, ht⟩
  have hsorted : (getPerformances parseDate store currentDate).upcoming.Pairwise
      (fun a b => (parseDate a.date).getD 0 ≤ (parseDate b.date).getD 0) := by
    apply pairwise_jsSort
    intro a ha b hb
    obtain ⟨x, hx⟩ := hvalid a ((mem_jsSort _ _ a).2 ha)
    obtain ⟨y, hy⟩ := hvalid b ((mem_jsSort _ _ b).2 hb)
    simp [dateSub, hx, hy]
  refine List.Pairwise.imp_of_mem ?_ hsorted
  intro a b ha hb hab
  obtain ⟨x, hx⟩ := hvalid a ha
  obtain ⟨y, hy⟩ := hvalid b hb
  exact ⟨x, y, hx, hy, by simpa [hx, hy] using hab⟩

theorem previous_descending (parseDate : String → TimeValue) (store : List Performance)
    (currentDate : Int) :
    DateDescending parseDate (getPerformances parseDate store currentDate).previous := by
  have hvalid : ∀ p ∈ (getPerformances parseDate store currentDate).previous,
      ∃ t, parseDate p.date = some t := fun p hp =>
    let ⟨_, _, t, ht, _⟩ := (mem_previous parseDate store currentDate p).1 hp
    ⟨t, ht⟩
  have hsorted : (getPerformances parseDate store currentDate).previous.Pairwise
      (fun a b => -((parseDate a.date).getD 0) ≤ -((parseDate b.date).getD 0)) := by
    apply pairwise_jsSort _ (fun p : Performance => -((parseDate p.date).getD 0))
    intro a ha b hb
    obtain ⟨x, hx⟩ := hvalid a ((mem_jsSort _ _ a).2 ha)
    obtain ⟨y, hy⟩ := hvalid b ((mem_jsSort _ _ b).2 hb)
    simp [dateSub, hx, hy]
    omega
  refine List.Pairwise.imp_of_mem ?_ hsorted
  intro a b ha hb hab
  obtain ⟨x, hx⟩ := hvalid a ha
  obtain ⟨y, hy⟩ := hvalid b hb
  exact ⟨x, y, hx, hy, by simpa [hx, hy] using hab⟩

/-- Claim C1. For every store, date parser and request time, `upcoming` is a
rearrangement of exactly the active records whose parsed date is at or after the
request time, in ascending order of date, and `previous` a rearrangement of exactly the
active records whose parsed date is before it, in descending order; an inactive record
is in neither list. With the request on 2024-06-15, an active record dated 2020-01-01
lands in `previous` and one dated 2999-01-01 in `upcoming`. -/
theorem getPerformances_upcoming_previous (parseDate : String → TimeValue)
    (store : List Performance) (currentDate : Int) :
    ((getPerformances parseDate store currentDate).upcoming.Perm
        (store.filter (fun perf => perf.active && dateGe (parseDate perf.date) currentDate))
      ∧ (∀ perf, perf ∈ (getPerformances parseDate store currentDate).upcoming ↔
          perf ∈ store ∧ perf.active = true ∧
            ∃ t, parseDate perf.date = some t ∧ currentDate ≤ t)
      ∧ DateAscending parseDate (getPerformances parseDate store currentDate).upcoming)
    ∧ ((getPerformances parseDate store currentDate).previous.Perm
        (store.filter (fun perf => perf.active && dateLt (parseDate perf.date) currentDate))
      ∧ (∀ perf, perf ∈ (getPerformances parseDate store currentDate).previous ↔
          perf ∈ store ∧ perf.active = true ∧
            ∃ t, parseDate perf.date = some t ∧ t < currentDate)
      ∧ DateDescending parseDate (getPerformances parseDate store currentDate).previous)
    ∧ (∀ perf, perf.active = false →
        perf ∉ (getPerformances parseDate store currentDate).upcoming ∧
        perf ∉ (getPerformances parseDate store currentDate).previous)
    ∧ getPerformances exampleParseDate
        [examplePerformance "1" "2020-01-01" true, examplePerformance "2" "2999-01-01" true,
         examplePerformance "3" "2999-01-01" false] 1718409600000
      = { upcoming := [examplePerformance "2" "2999-01-01" true],
          previous := [examplePerformance "1" "2020-01-01" true] } := by
  refine ⟨⟨?_, mem_upcoming parseDate store currentDate, upcoming_ascending parseDate store currentDate⟩,
    ⟨?_, mem_previous parseDate store currentDate, previous_descending parseDate store currentDate⟩,
    ?_, by decide⟩
  · simp only [getPerformances]
    rw [filter_active_filter]
    exact perm_jsSort _ _
  · simp only [getPerformances]
    rw [filter_active_filter]
    exact perm_jsSort _ _
  · intro perf hperf
    constructor
    · intro h
      have := ((mem_upcoming parseDate store currentDate perf).1 h).2.1
      simp [hperf] at this
    · intro h
      have := ((mem_previous parseDate store currentDate perf).1 h).2.1
      simp [hperf] at this

theorem filter_ge_append_lt_perm (parseDate : String → TimeValue) (currentDate : Int)
    (store : List Performance) :
    (store.filter (fun perf => perf.active && dateGe (parseDate perf.date) currentDate)
      ++ store.filter (fun perf => perf.active && dateLt (parseDate perf.date) currentDate)).Perm
    (store.filter (fun perf => perf.active && (parseDate perf.date).isSome)) := by
  induction store with
  | nil => simp
  | cons p l ih =>
    cases ha : p.active with
    | false => simpa [List.filter_cons, ha] using ih
    | true =>
      cases hd : parseDate p.date with
      | none => simpa [List.filter_cons, ha, hd, dateGe, dateLt] using ih
      | some t =>
        by_cases hle : currentDate ≤ t
        · have hlt : ¬ t < currentDate := by omega
          simpa [List.filter_cons, ha, hd, dateGe, dateLt, hle, hlt] using ih
        · have hlt : t < currentDate := by omega
          simp only [List.filter_cons, ha, hd, dateGe, dateLt, hle, hlt, Bool.true_and,
            decide_False, decide_True, Option.isSome_some, if_true, if_false, Bool.false_eq_true]
          exact List.perm_middle.trans (List.Perm.cons p ih)

/-- Claim C10, as stated, fails: an active record whose date string is no date (here
`TBD`) is in neither list, and the two lengths add up to 0, not to the 1 active record. -/
theorem getPerformances_partition_fails_on_invalid_date :
    examplePerformance "1" "TBD" true ∉
        (getPerformances exampleParseDate [examplePerformance "1" "TBD" true] 1718409600000).upcoming
    ∧ examplePerformance "1" "TBD" true ∉
        (getPerformances exampleParseDate [examplePerformance "1" "TBD" true] 1718409600000).previous
    ∧ (getPerformances exampleParseDate [examplePerformance "1" "TBD" true] 1718409600000).upcoming.length
        + (getPerformances exampleParseDate [examplePerformance "1" "TBD" true] 1718409600000).previous.length
      ≠ ([examplePerformance "1" "TBD" true].filter (fun perf => perf.active)).length := by
  decide

/-- Claim C10, amended. For every store, date parser and request time, the two lists
together are a rearrangement of exactly the active records whose date parses, no record is
in both lists, an active stored record whose date parses is in one of them, and a record
whose date does not parse is in neither; so the two lengths add up to the number of active
records whose date parses. -/
theorem getPerformances_partition_of_valid_dates (parseDate : String → TimeValue)
    (store : List Performance) (currentDate : Int) :
    ((getPerformances parseDate store currentDate).upcoming
        ++ (getPerformances parseDate store currentDate).previous).Perm
      (store.filter (fun perf => perf.active && (parseDate perf.date).isSome))
    ∧ (∀ perf, ¬ (perf ∈ (getPerformances parseDate store currentDate).upcoming
        ∧ perf ∈ (getPerformances parseDate store currentDate).previous))
    ∧ (∀ perf, perf ∈ store → perf.active = true → (parseDate perf.date).isSome = true →
        (perf ∈ (getPerformances parseDate store currentDate).upcoming
          ∨ perf ∈ (getPerformances parseDate store currentDate).previous))
    ∧ (∀ perf, parseDate perf.date = none →
        perf ∉ (getPerformances parseDate store currentDate).upcoming
        ∧ perf ∉ (getPerformances parseDate store currentDate).previous)
    ∧ (getPerformances parseDate store currentDate).upcoming.length
        + (getPerformances parseDate store currentDate).previous.length
      = (store.filter (fun perf => perf.active && (parseDate perf.date).isSome)).length := by
  have hperm : ((getPerformances parseDate store currentDate).upcoming
        ++ (getPerformances parseDate store currentDate).previous).Perm
      (store.filter (fun perf => perf.active && (parseDate perf.date).isSome)) := by
    refine List.Perm.trans ?_ (filter_ge_append_lt_perm parseDate currentDate store)
    simp only [getPerformances]
    rw [filter_active_filter, filter_active_filter]
    exact List.Perm.append (perm_jsSort _ _) (perm_jsSort _ _)
  refine ⟨hperm, ?_, ?_, ?_, ?_⟩
  · rintro perf ⟨hu, hp⟩
    obtain ⟨_, _, t, ht, hle⟩ := (mem_upcoming parseDate store currentDate perf).1 hu
    obtain ⟨_, _, t', ht', hlt⟩ := (mem_previous parseDate store currentDate perf).1 hp
    rw [ht] at ht'
    cases ht'
    omega
  · intro perf hs ha hd
    obtain ⟨t, ht⟩ := Option.isSome_iff_exists.1 hd
    by_cases hle : currentDate ≤ t
    · exact Or.inl ((mem_upcoming parseDate store currentDate perf).2 ⟨hs, ha, t, ht, hle⟩)
    · exact Or.inr ((mem_previous parseDate store currentDate perf).2 ⟨hs, ha, t, ht, by omega⟩)
  · intro perf hnone
    constructor
    · intro h
      obtain ⟨_, _, t, ht, _⟩ := (mem_upcoming parseDate store currentDate perf).1 h
      rw [hnone] at ht
      cases ht
    · intro h
      obtain ⟨_, _, t, ht, _⟩ := (mem_previous parseDate store currentDate perf).1 h
      rw [hnone] at ht
      cases ht
  · rw [← List.length_append]
    exact hperm.length_eq

theorem deleteOne_sublist (userId : String) (l : List ResetToken) :
    (deleteOne userId l).Sublist l := by
  induction l with
  | nil => simp [deleteOne]
  | cons t ts ih =>
    simp only [deleteOne]
    split
    · exact List.sublist_cons_self t ts
    · exact List.Sublist.cons₂ t ih

theorem find?_deleteOne (userId : String) (l : List ResetToken)
    (h : (l.filter (fun t => t.userId = userId)).length ≤ 1) :
    (deleteOne userId l).find? (fun t => t.userId = userId) = none := by
  induction l with
  | nil => simp [deleteOne]
  | cons t ts ih =>
    by_cases ht : t.userId = userId
    · have hnil : ts.filter (fun t => t.userId = userId) = [] := by
        have : (ts.filter (fun t => t.userId = userId)).length = 0 := by
          simp [List.filter_cons, ht] at h
          simpa using h
        exact List.length_eq_zero.1 this
      simp only [deleteOne, ht, if_true]
      rw [List.find?_eq_none]
      intro x hx hpx
      have : x ∈ ts.filter (fun t => t.userId = userId) := List.mem_filter.2 ⟨hx, hpx⟩
      rw [hnil] at this
      cases this
    · have h' : (ts.filter (fun t => t.userId = userId)).length ≤ 1 := by
        simpa [List.filter_cons, ht] using h
      simp only [deleteOne, ht, if_false]
      rw [List.find?_cons_of_neg _ (by simpa using ht)]
      exact ih h'

theorem find?_updatePassword (id hashedPassword : String) (admins : List Admin) (a : Admin)
    (h : (updatePassword id hashedPassword admins).find? (fun a => a._id = id) = some a) :
    a.password = hashedPassword := by
  induction admins with
  | nil => simp [updatePassword] at h
  | cons b bs ih =>
    by_cases hb : b._id = id
    · simp [updatePassword, hb] at h
      rw [← h]
    · simp only [updatePassword, hb, if_false] at h
      rw [List.find?_cons_of_neg _ (by simpa using hb)] at h
      exact ih h

/-- A successful `resetPassword` went through every check and made both writes. -/
theorem resetPassword_of_success (bcrypt : Bcrypt) (castObjectId : String → Option String)
    (db : Db) (userId token : String) (password : Option String) (salt : Nat)
    (h : (resetPassword bcrypt castObjectId db userId token password salt).2.status = 200) :
    ∃ id resetToken pw, castObjectId userId = some id
      ∧ db.resetTokens.find? (fun t => t.userId = id) = some resetToken
      ∧ bcrypt.compare token resetToken.token = true
      ∧ password = some pw
      ∧ resetPassword bcrypt castObjectId db userId token password salt
        = ({ admins := updatePassword id (bcrypt.hash pw salt) db.admins,
             resetTokens := deleteOne id db.resetTokens },
           ⟨200, [("message", .str "Password reset successful")]⟩) := by
  cases hc : castObjectId userId with
  | none => simp [resetPassword, hc] at h
  | some id =>
    cases hf : db.resetTokens.find? (fun t => t.userId = id) with
    | none => simp [resetPassword, hc, hf] at h
    | some resetToken =>
      by_cases hcmp : bcrypt.compare token resetToken.token = true
      · cases password with
        | none => simp [resetPassword, hc, hf, hcmp] at h
        | some pw =>
          exact ⟨id, resetToken, pw, rfl, hf, hcmp, rfl, by simp [resetPassword, hc, hf, hcmp]⟩
      · simp [resetPassword, hc, hf, hcmp] at h

theorem atMostOneToken_of_length_le_one (db : Db) (h : db.resetTokens.length ≤ 1) :
    AtMostOneToken db := fun _ =>
  le_trans (List.length_filter_le _ _) h

theorem resetPassword_preserves (bcrypt : Bcrypt) (castObjectId : String → Option String)
    (db : Db) (userId token : String) (password : Option String) (salt : Nat)
    (hinv : AtMostOneToken db) :
    AtMostOneToken (resetPassword bcrypt castObjectId db userId token password salt).1 := by
  cases hc : castObjectId userId with
  | none => simpa [resetPassword, hc] using hinv
  | some id =>
    cases hf : db.resetTokens.find? (fun t => t.userId = id) with
    | none => simpa [resetPassword, hc, hf] using hinv
    | some resetToken =>
      by_cases hcmp : bcrypt.compare token resetToken.token = true
      · cases password with
        | none => simpa [resetPassword, hc, hf, hcmp] using hinv
        | some pw =>
          simp only [resetPassword, hc, hf, hcmp, not_true_eq_false, if_false]
          intro u
          exact le_trans ((deleteOne_sublist id db.resetTokens).filter _).length_le (hinv u)
      · simpa [resetPassword, hc, hf, hcmp] using hinv

/-- The token store after `requestReset` found the admin. -/
theorem requestReset_tokens (bcrypt : Bcrypt) (db : Db) (email : String) (e : ResetEntropy)
    (send : EmailMessage → SendOutcome) (admin : Admin) (hemail : email ≠ "")
    (hadmin : db.admins.find? (fun a => a.email = email) = some admin) :
    (requestReset bcrypt db (some email) e send).1
      = { db with resetTokens := db.resetTokens.filter (fun t => ¬ t.userId = admin._id)
            ++ [⟨admin._id, bcrypt.hash e.resetToken e.salt, e.now⟩] } := by
  unfold requestReset
  simp only [falsy, hemail, decide_False, Bool.false_eq_true, if_false, Option.getD_some, hadmin]
  cases send _ <;> rfl

theorem requestReset_preserves (bcrypt : Bcrypt) (db : Db) (email : Option String)
    (e : ResetEntropy) (send : EmailMessage → SendOutcome) (hinv : AtMostOneToken db) :
    AtMostOneToken (requestReset bcrypt db email e send).1 := by
  by_cases hf : falsy email = true
  · simpa [requestReset, hf] using hinv
  · cases email with
    | none => simp [falsy] at hf
    | some em =>
      have hem : em ≠ "" := by simpa [falsy] using hf
      cases hadmin : db.admins.find? (fun a => a.email = em) with
      | none => simpa [requestReset, falsy, hem, hadmin] using hinv
      | some admin =>
        rw [requestReset_tokens bcrypt db em e send admin hem hadmin]
        intro u
        simp only [List.filter_append, List.length_append]
        by_cases hu : admin._id = u
        · subst hu
          have : (db.resetTokens.filter (fun t => ¬ t.userId = admin._id)).filter
              (fun t => t.userId = admin._id) = [] := by
            rw [List.filter_eq_nil_iff]
            intro t ht
            simpa using (List.mem_filter.1 ht).2
          simp [this]
        · have h1 : ((db.resetTokens.filter (fun t => ¬ t.userId = admin._id)).filter
              (fun t => t.userId = u)).length ≤ 1 :=
            le_trans ((List.filter_sublist _).filter _).length_le (hinv u)
          simpa [List.filter_cons, hu] using h1

/-- Every state the routes reach has at most one token record per admin id. -/
theorem atMostOneToken_of_reachable (bcrypt : Bcrypt) (castObjectId : String → Option String)
    (db : Db) (h : Reachable bcrypt castObjectId db) : AtMostOneToken db := by
  induction h with
  | init admins => exact atMostOneToken_of_length_le_one _ (by simp)
  | request db email e send _ ih => exact requestReset_preserves bcrypt db email e send ih
  | reset db userId token password salt _ ih =>
    exact resetPassword_preserves bcrypt castObjectId db userId token password salt ih
  | expire db now _ ih =>
    intro u
    exact le_trans ((List.filter_sublist _).filter _).length_le (ih u)

/-- Claim C2. In every state of the token store with at most one record per admin id (the
invariant of the data model, which every state the routes reach has), if `resetPassword`
succeeds for a user id and plaintext token, then a following call with the same user id and
token, whatever password it carries, answers 400 `Invalid or expired reset token` and
changes nothing: the admin's password hash stays the hash of the first call's password. -/
theorem resetPassword_single_use (bcrypt : Bcrypt) (castObjectId : String → Option String)
    (db : Db) (userId token : String) (password : Option String) (salt : Nat)
    (hinv : AtMostOneToken db)
    (hok : (resetPassword bcrypt castObjectId db userId token password salt).2.status = 200) :
    (∀ (password2 : Option String) (salt2 : Nat),
      resetPassword bcrypt castObjectId
          (resetPassword bcrypt castObjectId db userId token password salt).1
          userId token password2 salt2
        = ((resetPassword bcrypt castObjectId db userId token password salt).1,
            invalidOrExpiredToken))
    ∧ ∃ id pw, castObjectId userId = some id ∧ password = some pw
        ∧ ∀ a, (resetPassword bcrypt castObjectId db userId token password salt).1.admins.find?
              (fun a => a._id = id) = some a → a.password = bcrypt.hash pw salt := by
  obtain ⟨id, resetToken, pw, hc, _, _, hpw, heq⟩ :=
    resetPassword_of_success bcrypt castObjectId db userId token password salt hok
  rw [heq]
  refine ⟨?_, id, pw, hc, hpw, ?_⟩
  · intro password2 salt2
    simp [resetPassword, hc, find?_deleteOne id db.resetTokens (hinv id), invalidOrExpiredToken]
  · intro a ha
    exact find?_updatePassword id (bcrypt.hash pw salt) db.admins a ha

/-- The claim C2 on the example database: the token of the first request is consumed by a
first reset, and the same token is then refused. -/
theorem resetPassword_single_use_witness :
    resetPassword plainBcrypt some
        (resetPassword plainBcrypt some exampleDbIssued "65f0c0ffee0123456789abcd" "01d5ec"
          (some "n3w") 3).1
        "65f0c0ffee0123456789abcd" "01d5ec" (some "0ther") 4
      = ((resetPassword plainBcrypt some exampleDbIssued "65f0c0ffee0123456789abcd" "01d5ec"
          (some "n3w") 3).1, invalidOrExpiredToken) :=
  (resetPassword_single_use plainBcrypt some exampleDbIssued "65f0c0ffee0123456789abcd" "01d5ec"
    (some "n3w") 3 (atMostOneToken_of_length_le_one _ (by decide)) (by decide)).1 (some "0ther") 4

/-- Claim C3. After `requestReset` for a registered email, whatever the email send does,
the token store holds exactly one record for that admin id, the hash of the new secret, so
`resetPassword` with any plaintext that differs from the new secret (and so does not verify
against its hash) fails with `Invalid or expired reset token` and changes nothing; and both
`requestReset` and `resetPassword` keep `at most one token record per admin id`. -/
theorem requestReset_invalidates_previous_token (bcrypt : Bcrypt)
    (castObjectId : String → Option String) (db : Db) (email : String) (e : ResetEntropy)
    (send : EmailMessage → SendOutcome) (admin : Admin)
    (hemail : email ≠ "")
    (hadmin : db.admins.find? (fun a => a.email = email) = some admin)
    (hcast : castObjectId admin._id = some admin._id)
    (hbcrypt : ∀ p, p ≠ e.resetToken →
      bcrypt.compare p (bcrypt.hash e.resetToken e.salt) = false) :
    (requestReset bcrypt db (some email) e send).1.resetTokens.filter
        (fun t => t.userId = admin._id)
      = [⟨admin._id, bcrypt.hash e.resetToken e.salt, e.now⟩]
    ∧ (∀ (p : String) (password : Option String) (salt : Nat), p ≠ e.resetToken →
        resetPassword bcrypt castObjectId (requestReset bcrypt db (some email) e send).1
            admin._id p password salt
          = ((requestReset bcrypt db (some email) e send).1, invalidOrExpiredToken))
    ∧ (∀ (db0 : Db) (email0 : Option String) (e0 : ResetEntropy)
        (send0 : EmailMessage → SendOutcome), AtMostOneToken db0 →
        AtMostOneToken (requestReset bcrypt db0 email0 e0 send0).1)
    ∧ (∀ (db0 : Db) (userId token : String) (password : Option String) (salt : Nat),
        AtMostOneToken db0 →
        AtMostOneToken (resetPassword bcrypt castObjectId db0 userId token password salt).1) := by
  have hfilter : (db.resetTokens.filter (fun t => ¬ t.userId = admin._id)).filter
      (fun t => t.userId = admin._id) = [] := by
    rw [List.filter_eq_nil_iff]
    intro t ht
    simpa using (List.mem_filter.1 ht).2
  have hfind : (db.resetTokens.filter (fun t => ¬ t.userId = admin._id)).find?
      (fun t => t.userId = admin._id) = none := by
    rw [List.find?_eq_none]
    intro t ht
    simpa using (List.mem_filter.1 ht).2
  rw [requestReset_tokens bcrypt db email e send admin hemail hadmin]
  refine ⟨?_, ?_, ?_, ?_⟩
  · simp [List.filter_append, hfilter]
  · intro p password salt hp
    have hfound : List.find? (fun t : ResetToken => decide (t.userId = admin._id))
        (db.resetTokens.filter (fun t => ¬ t.userId = admin._id)
          ++ [(⟨admin._id, bcrypt.hash e.resetToken e.salt, e.now⟩ : ResetToken)])
        = some ⟨admin._id, bcrypt.hash e.resetToken e.salt, e.now⟩ := by
      rw [List.find?_append, hfind]
      simp
    simp only [resetPassword, hcast, hfound, hbcrypt p hp, invalidOrExpiredToken]
    simp
  · intro db0 email0 e0 send0 h0
    exact requestReset_preserves bcrypt db0 email0 e0 send0 h0
  · intro db0 userId token password salt h0
    exact resetPassword_preserves bcrypt castObjectId db0 userId token password salt h0

/-- The claim C3 on the example database, which holds the token of a first request: a second
request leaves one record, the hash of the new secret, and the first plaintext is refused. -/
theorem requestReset_invalidates_previous_token_witness :
    (requestReset plainBcrypt exampleDbIssued (some "admin@example.com") exampleEntropy
        (fun _ => .threw)).1.resetTokens
      = [⟨"65f0c0ffee0123456789abcd", "5ec2e7", 1718409600000⟩]
    ∧ resetPassword plainBcrypt some
        (requestReset plainBcrypt exampleDbIssued (some "admin@example.com") exampleEntropy
          (fun _ => .threw)).1
        "65f0c0ffee0123456789abcd" "01d5ec" (some "n3w") 3
      = ((requestReset plainBcrypt exampleDbIssued (some "admin@example.com") exampleEntropy
          (fun _ => .threw)).1, invalidOrExpiredToken) :=
  ⟨by decide,
    (requestReset_invalidates_previous_token plainBcrypt some exampleDbIssued "admin@example.com"
      exampleEntropy (fun _ => .threw) exampleAdmin (by decide) (by decide) rfl
      (fun p hp => by simp [plainBcrypt, hp])).2.1 "01d5ec" (some "n3w") 3 (by decide)⟩

/-- Claim C4 against the code. For a registered email whose send succeeds and an
unregistered one, the two responses share the status 200 but not the body: the registered
one reads `Password reset email sent successfully`, the other `If your email is
registered, you will receive reset instructions`. -/
theorem requestReset_body_reveals_registration (bcrypt : Bcrypt) (db : Db)
    (email1 email2 : String) (e1 e2 : ResetEntropy) (send : EmailMessage → SendOutcome)
    (admin : Admin) (data : Option String)
    (hemail1 : email1 ≠ "") (hemail2 : email2 ≠ "")
    (hregistered : db.admins.find? (fun a => a.email = email1) = some admin)
    (hunregistered : db.admins.find? (fun a => a.email = email2) = none)
    (hsend : ∀ m, send m = .returned data none) :
    (requestReset bcrypt db (some email1) e1 send).2.1
      = ⟨200, [("message", .str "Password reset email sent successfully")]⟩
    ∧ (requestReset bcrypt db (some email2) e2 send).2.1
      = ⟨200, [("message",
          .str "If your email is registered, you will receive reset instructions")]⟩
    ∧ (requestReset bcrypt db (some email1) e1 send).2.1.status
      = (requestReset bcrypt db (some email2) e2 send).2.1.status
    ∧ (requestReset bcrypt db (some email1) e1 send).2.1.body
      ≠ (requestReset bcrypt db (some email2) e2 send).2.1.body := by
  have h1 : (requestReset bcrypt db (some email1) e1 send).2.1
      = ⟨200, [("message", .str "Password reset email sent successfully")]⟩ := by
    simp [requestReset, falsy, hemail1, hregistered, hsend]
  have h2 : (requestReset bcrypt db (some email2) e2 send).2.1
      = ⟨200, [("message",
          .str "If your email is registered, you will receive reset instructions")]⟩ := by
    simp [requestReset, falsy, hemail2, hunregistered]
  rw [h1, h2]
  exact ⟨rfl, rfl, rfl, by decide⟩

/-- The claim C4 on the example database: `admin@example.com` is registered,
`nobody@example.com` is not, and the two response bodies differ. -/
theorem requestReset_body_reveals_registration_witness :
    (requestReset plainBcrypt exampleDb (some "admin@example.com") exampleEntropy
        (fun _ => .returned (some "id-1") none)).2.1.body
      ≠ (requestReset plainBcrypt exampleDb (some "nobody@example.com") exampleEntropy
        (fun _ => .returned (some "id-1") none)).2.1.body :=
  (requestReset_body_reveals_registration plainBcrypt exampleDb "admin@example.com"
    "nobody@example.com" exampleEntropy exampleEntropy (fun _ => .returned (some "id-1") none)
    exampleAdmin (some "id-1") (by decide) (by decide) (by decide) (by decide)
    (fun _ => rfl)).2.2.2

/-- Claim C6, as stated, fails: after a notification send that succeeds, a confirmation
send that throws gives 500 with `success: false` and no `warning`, where the same
notification send with a confirmation send that returns gives 200 with `success: true`; the
outcome is not decided by the notification send alone. -/
theorem sendEmail_confirmation_throw_fails_request :
    (sendEmail ⟨some "Ann", some "ann@example.com", some "Hi", some "Hello"⟩ 2024
        (fun n _ => if n = 0 then .returned (some "id-1") none else .threw)).1
      = ⟨500, [("success", .bool false), ("error", .str "Internal server error")]⟩
    ∧ (sendEmail ⟨some "Ann", some "ann@example.com", some "Hi", some "Hello"⟩ 2024
        (fun n _ => if n = 0 then .returned (some "id-1") none else .threw)).2.map
          (fun m => m.recipient)
      = ["abhinav.kotta@gmail.com", "ann@example.com"]
    ∧ (sendEmail ⟨some "Ann", some "ann@example.com", some "Hi", some "Hello"⟩ 2024
        (fun n _ => if n = 0 then .returned (some "id-1") none
          else .returned (some "id-2") none)).1.status = 200 := by
  decide

/-- Claim C6, amended. For a contact-form request with all four fields present: if the
notification send reports an error (a returned error object, or an exception) the response
is 500 with `success: false` and the notification is the only send attempted; if the
notification send returns without error and the confirmation send returns a result, the
response is 200 with `success: true` whatever that result is, and it has a `warning` field
exactly when the result holds an error; if the notification send returns without error and
the confirmation send throws, the response is 500 with `success: false`, without a
`warning`, both sends having been attempted. -/
theorem sendEmail_outcomes (name email subject message : String)
    (fullYear : Nat) (send : Nat → EmailMessage → SendOutcome)
    (hname : name ≠ "") (hemail : email ≠ "") (hsubject : subject ≠ "")
    (hmessage : message ≠ "") :
    ((send 0 (notificationMessage name email subject message) = .threw
        ∨ ∃ data error, send 0 (notificationMessage name email subject message)
            = .returned data (some error)) →
      (sendEmail ⟨some name, some email, some subject, some message⟩ fullYear send).1.status = 500
      ∧ (sendEmail ⟨some name, some email, some subject, some message⟩ fullYear send).1.field
          "success" = some (.bool false)
      ∧ (sendEmail ⟨some name, some email, some subject, some message⟩ fullYear send).2
          = [notificationMessage name email subject message])
    ∧ (∀ data data2 error2,
        send 0 (notificationMessage name email subject message) = .returned data none →
        send 1 (confirmationMessage name email subject message fullYear)
          = .returned data2 error2 →
        (sendEmail ⟨some name, some email, some subject, some message⟩ fullYear send).1.status = 200
        ∧ (sendEmail ⟨some name, some email, some subject, some message⟩ fullYear send).1.field
            "success" = some (.bool true)
        ∧ (((sendEmail ⟨some name, some email, some subject, some message⟩ fullYear send).1.field
            "warning").isSome = true ↔ error2.isSome = true)
        ∧ (sendEmail ⟨some name, some email, some subject, some message⟩ fullYear send).2
            = [notificationMessage name email subject message,
               confirmationMessage name email subject message fullYear])
    ∧ (∀ data,
        send 0 (notificationMessage name email subject message) = .returned data none →
        send 1 (confirmationMessage name email subject message fullYear) = .threw →
        (sendEmail ⟨some name, some email, some subject, some message⟩ fullYear send).1
            = ⟨500, [("success", .bool false), ("error", .str "Internal server error")]⟩
        ∧ (sendEmail ⟨some name, some email, some subject, some message⟩ fullYear send).1.field
            "warning" = none
        ∧ (sendEmail ⟨some name, some email, some subject, some message⟩ fullYear send).2
            = [notificationMessage name email subject message,
               confirmationMessage name email subject message fullYear]) := by
  refine ⟨?_, ?_, ?_⟩
  · rintro (h | ⟨data, error, h⟩)
    · simp [sendEmail, falsy, hname, hemail, hsubject, hmessage, h, Response.field]
    · simp [sendEmail, falsy, hname, hemail, hsubject, hmessage, h, Response.field]
  · intro data data2 error2 h0 h1
    cases error2 with
    | none => simp [sendEmail, falsy, hname, hemail, hsubject, hmessage, h0, h1, Response.field]
    | some err =>
      simp [sendEmail, falsy, hname, hemail, hsubject, hmessage, h0, h1, Response.field]
  · intro data h0 h1
    simp [sendEmail, falsy, hname, hemail, hsubject, hmessage, h0, h1, Response.field]

/-- The amended claim C6 on an example request whose notification send succeeds: with a
confirmation send that returns an error the response is 200 with a `warning`, with one
that throws it is 500. -/
theorem sendEmail_outcomes_witness :
    (sendEmail ⟨some "Ann", some "ann@example.com", some "Hi", some "Hello"⟩ 2024
        (fun n _ => if n = 0 then .returned (some "id-1") none
          else .returned none (some "rate limit"))).1.status = 200
    ∧ (sendEmail ⟨some "Ann", some "ann@example.com", some "Hi", some "Hello"⟩ 2024
        (fun n _ => if n = 0 then .returned (some "id-1") none
          else .returned none (some "rate limit"))).1.field "warning"
      = some (.str "Notification sent, but confirmation email failed")
    ∧ (sendEmail ⟨some "Ann", some "ann@example.com", some "Hi", some "Hello"⟩ 2024
        (fun n _ => if n = 0 then .returned (some "id-1") none else .threw)).1
      = ⟨500, [("success", .bool false), ("error", .str "Internal server error")]⟩ :=
  ⟨((sendEmail_outcomes "Ann" "ann@example.com" "Hi" "Hello" 2024
      (fun n _ => if n = 0 then .returned (some "id-1") none
        else .returned none (some "rate limit"))
      (by decide) (by decide) (by decide) (by decide)).2.1 (some "id-1") none
      (some "rate limit") rfl rfl).1, by decide,
    ((sendEmail_outcomes "Ann" "ann@example.com" "Hi" "Hello" 2024
      (fun n _ => if n = 0 then .returned (some "id-1") none else .threw)
      (by decide) (by decide) (by decide) (by decide)).2.2 (some "id-1") rfl rfl).1⟩

/-- Claim C7 against the code. For a reset request whose email matches an admin: when the
provider's send returns an error result, the form the contact-form route checks, the
response is still 200 `Password reset email sent successfully`; only a send that throws
gives the 500 response. -/
theorem requestReset_ignores_returned_error (bcrypt : Bcrypt) (db : Db) (email : String)
    (e : ResetEntropy) (send : EmailMessage → SendOutcome) (admin : Admin)
    (hemail : email ≠ "")
    (hadmin : db.admins.find? (fun a => a.email = email) = some admin) :
    ((∃ data error, ∀ m, send m = .returned data (some error)) →
      (requestReset bcrypt db (some email) e send).2.1
        = ⟨200, [("message", .str "Password reset email sent successfully")]⟩)
    ∧ ((∀ m, send m = .threw) →
      (requestReset bcrypt db (some email) e send).2.1
        = ⟨500, [("message", .str "Internal server error")]⟩) := by
  constructor
  · rintro ⟨data, error, h⟩
    simp [requestReset, falsy, hemail, hadmin, h]
  · intro h
    simp [requestReset, falsy, hemail, hadmin, h]

/-- The claim C7 on the example database: the send returns the error `invalid api key`
and the response is the 200 success message. -/
theorem requestReset_ignores_returned_error_witness :
    (requestReset plainBcrypt exampleDb (some "admin@example.com") exampleEntropy
        (fun _ => .returned none (some "invalid api key"))).2.1
      = ⟨200, [("message", .str "Password reset email sent successfully")]⟩ :=
  (requestReset_ignores_returned_error plainBcrypt exampleDb "admin@example.com" exampleEntropy
    (fun _ => .returned none (some "invalid api key")) exampleAdmin (by decide) (by decide)).1
    ⟨none, "invalid api key", fun _ => rfl⟩

theorem replaceChar_eq_expandChars (c : Char) (rep : List Char) (l : List Char) :
    replaceChar c rep l = expandChars (fun x => if x = c then rep else [x]) l := by
  induction l with
  | nil => rfl
  | cons x xs ih =>
    simp only [replaceChar, expandChars, ih]
    split <;> simp

theorem expandChars_append (f : Char → List Char) (a b : List Char) :
    expandChars f (a ++ b) = expandChars f a ++ expandChars f b := by
  induction a with
  | nil => rfl
  | cons x xs ih => simp [expandChars, ih]

theorem expandChars_expandChars (f g : Char → List Char) (l : List Char) :
    expandChars g (expandChars f l) = expandChars (fun x => expandChars g (f x)) l := by
  induction l with
  | nil => rfl
  | cons x xs ih => simp [expandChars, expandChars_append, ih]

theorem sanitizeChars_eq_expandChars (l : List Char) :
    sanitizeChars l = expandChars escapeChar l := by
  simp only [sanitizeChars, replaceChar_eq_expandChars, expandChars_expandChars]
  congr 1
  funext x
  by_cases h1 : x = '&'
  · subst h1; decide
  by_cases h2 : x = '<'
  · subst h2; decide
  by_cases h3 : x = '>'
  · subst h3; decide
  by_cases h4 : x = '"'
  · subst h4; decide
  by_cases h5 : x = apostrophe
  · subst h5; decide
  simp [escapeChar, expandChars, h1, h2, h3, h4, h5]

/-- Where a character of a one-pass replacement comes from: the replacement of one input
character, of which the text before holds the start and the text after the rest. -/
theorem expandChars_split (f : Char → List Char) (c : Char) (l pre post : List Char)
    (h : expandChars f l = pre ++ c :: post) :
    ∃ x ∈ l, ∃ p1 p2, f x = p1 ++ c :: p2 ∧ p1 <:+ pre ∧ p2 <+: post := by
  induction l generalizing pre with
  | nil => simp [expandChars] at h
  | cons x xs ih =>
    simp only [expandChars] at h
    rcases List.append_eq_append_iff.1 h with ⟨a, hpre, hE⟩ | ⟨c', hfx, hpost⟩
    · obtain ⟨y, hy, p1, p2, hf, hp1, hp2⟩ := ih a hE
      refine ⟨y, List.mem_cons_of_mem x hy, p1, p2, hf, ?_, hp2⟩
      rw [hpre]
      exact hp1.trans (List.suffix_append _ _)
    · cases c' with
      | nil =>
        simp only [List.nil_append, List.append_nil] at hfx hpost
        obtain ⟨y, hy, p1, p2, hf, hp1, hp2⟩ := ih [] (by simpa using hpost.symm)
        have : p1 = [] := List.suffix_nil.1 hp1
        subst this
        exact ⟨y, List.mem_cons_of_mem x hy, [], p2, hf, List.nil_suffix, hp2⟩
      | cons d c'' =>
        simp only [List.cons_append, List.cons.injEq] at hpost
        obtain ⟨rfl, rfl⟩ := hpost
        exact ⟨x, List.mem_cons_self x xs, pre, c'', hfx, List.suffix_refl _,
          List.prefix_append _ _⟩

theorem escapeChar_cases (x : Char) :
    escapeChar x = "&amp;".data ∨ escapeChar x = "&lt;".data ∨ escapeChar x = "&gt;".data
      ∨ escapeChar x = "&quot;".data ∨ escapeChar x = "&#39;".data
      ∨ (escapeChar x = [x] ∧ x ≠ '&' ∧ x ≠ '<' ∧ x ≠ '>' ∧ x ≠ '"' ∧ x ≠ apostrophe) := by
  by_cases h1 : x = '&'
  · subst h1; decide
  by_cases h2 : x = '<'
  · subst h2; decide
  by_cases h3 : x = '>'
  · subst h3; decide
  by_cases h4 : x = '"'
  · subst h4; decide
  by_cases h5 : x = apostrophe
  · subst h5; decide
  simp [escapeChar, h1, h2, h3, h4, h5]

theorem not_mem_escapeChar (x c : Char)
    (hc : c = '<' ∨ c = '>' ∨ c = '"' ∨ c = apostrophe) : c ∉ escapeChar x := by
  rcases escapeChar_cases x with h | h | h | h | h | ⟨h, h1, h2, h3, h4, h5⟩
  all_goals rw [h]
  all_goals rcases hc with rfl | rfl | rfl | rfl
  all_goals first | decide | simpa using (Ne.symm ‹_›)

theorem mem_expandChars (f : Char → List Char) (l : List Char) (c : Char) :
    c ∈ expandChars f l ↔ ∃ x ∈ l, c ∈ f x := by
  induction l with
  | nil => simp [expandChars]
  | cons x xs ih => simp [expandChars, ih]

theorem escapeChar_amp_split (x : Char) (p1 p2 : List Char)
    (h : escapeChar x = p1 ++ '&' :: p2) : p1 = [] ∧ p2 ∈ entityTails := by
  rcases escapeChar_cases x with e | e | e | e | e | ⟨e, h1, _⟩
  all_goals rw [e] at h
  all_goals
    rcases p1 with _ | ⟨a1, _ | ⟨a2, _ | ⟨a3, _ | ⟨a4, _ | ⟨a5, _ | ⟨a6, p⟩⟩⟩⟩⟩⟩ <;>
      simp [entityTails] at h ⊢
  all_goals first | omega | simp_all

theorem lineBreaks_data (s : String) :
    (lineBreaks s).data
      = expandChars (fun x => if x = '\n' then "<br/>".data else [x]) s.data := by
  simp [lineBreaks, replaceChar_eq_expandChars]

theorem not_mem_sanitizeChars (l : List Char) (c : Char)
    (hc : c = '<' ∨ c = '>' ∨ c = '"' ∨ c = apostrophe) : c ∉ sanitizeChars l := by
  rw [sanitizeChars_eq_expandChars, mem_expandChars]
  rintro ⟨x, _, hx⟩
  exact not_mem_escapeChar x c hc hx

theorem replaceChar_of_not_mem (c : Char) (rep l : List Char) (h : c ∉ l) :
    replaceChar c rep l = l := by
  induction l with
  | nil => rfl
  | cons x xs ih =>
    have hx : ¬ x = c := fun e => h (e ▸ List.mem_cons_self x xs)
    have hxs : c ∉ xs := fun m => h (List.mem_cons_of_mem x m)
    simp [replaceChar, hx, ih hxs]

theorem newline_not_mem_sanitizeChars (l : List Char) (h : '\n' ∉ l) :
    '\n' ∉ sanitizeChars l := by
  rw [sanitizeChars_eq_expandChars, mem_expandChars]
  rintro ⟨x, hx, hmem⟩
  rcases escapeChar_cases x with e | e | e | e | e | ⟨e, _⟩
  all_goals rw [e] at hmem
  all_goals first
    | exact absurd hmem (by decide)
    | (have hxn : '\n' = x := by simpa using hmem
       exact h (hxn ▸ hx))

/-- Claim C5, as stated, fails for the message: the value interpolated for a message with a
newline holds the raw `<` and `>` of the line break put in its place. -/
theorem message_value_has_raw_line_break :
    templateValues (notificationHtml (sanitizeHtml "Ann") (sanitizeHtml "ann@example.com")
        (sanitizeHtml "Hi") (sanitizeHtml "a\nb"))
      = ["Ann", "ann@example.com", "Hi", "a<br/>b"]
    ∧ templateValues (confirmationHtml (sanitizeHtml "Ann") (sanitizeHtml "Hi")
        (sanitizeHtml "a\nb") 2024)
      = ["Ann", "Hi", "a<br/>b", "2024"]
    ∧ '<' ∈ "a<br/>b".data ∧ '>' ∈ "a<br/>b".data := by
  decide

/-- Claim C5, amended. For every string, `sanitizeHtml` of it has no raw `<`, `>`, `"` or
apostrophe, and each `&` in it begins one of the five entities. The values interpolated
into the two bodies are the sanitized name, email and subject, which so hold no raw `<`
or `>`, and the sanitized message with each newline replaced by `<br/>`: in it every `<`
begins a `<br/>` and every `>` ends one, and there is none when the message has no
newline. `<script>` becomes `&lt;script&gt;`. -/
theorem sanitizeHtml_escapes (s name email subject message : String) (fullYear : Nat) :
    ('<' ∉ (sanitizeHtml s).data ∧ '>' ∉ (sanitizeHtml s).data
      ∧ '"' ∉ (sanitizeHtml s).data ∧ apostrophe ∉ (sanitizeHtml s).data)
    ∧ (∀ pre post, (sanitizeHtml s).data = pre ++ '&' :: post →
        ∃ tail ∈ entityTails, tail <+: post)
    ∧ (notificationMessage name email subject message).html
      = renderTemplate (notificationHtml (sanitizeHtml name) (sanitizeHtml email)
          (sanitizeHtml subject) (sanitizeHtml message))
    ∧ (confirmationMessage name email subject message fullYear).html
      = renderTemplate (confirmationHtml (sanitizeHtml name) (sanitizeHtml subject)
          (sanitizeHtml message) fullYear)
    ∧ templateValues (notificationHtml (sanitizeHtml name) (sanitizeHtml email)
        (sanitizeHtml subject) (sanitizeHtml message))
      = [sanitizeHtml name, sanitizeHtml email, sanitizeHtml subject,
         lineBreaks (sanitizeHtml message)]
    ∧ templateValues (confirmationHtml (sanitizeHtml name) (sanitizeHtml subject)
        (sanitizeHtml message) fullYear)
      = [sanitizeHtml name, sanitizeHtml subject, lineBreaks (sanitizeHtml message),
         toString fullYear]
    ∧ (∀ pre post, (lineBreaks (sanitizeHtml message)).data = pre ++ '<' :: post →
        "br/>".data <+: post)
    ∧ (∀ pre post, (lineBreaks (sanitizeHtml message)).data = pre ++ '>' :: post →
        "<br/".data <:+ pre)
    ∧ ('\n' ∉ message.data → lineBreaks (sanitizeHtml message) = sanitizeHtml message)
    ∧ sanitizeHtml "<script>" = "&lt;script&gt;" := by
  refine ⟨⟨?_, ?_, ?_, ?_⟩, ?_, rfl, rfl, rfl, rfl, ?_, ?_, ?_, by decide⟩
  · exact not_mem_sanitizeChars s.data '<' (Or.inl rfl)
  · exact not_mem_sanitizeChars s.data '>' (Or.inr (Or.inl rfl))
  · exact not_mem_sanitizeChars s.data '"' (Or.inr (Or.inr (Or.inl rfl)))
  · exact not_mem_sanitizeChars s.data apostrophe (Or.inr (Or.inr (Or.inr rfl)))
  · intro pre post h
    have h' : expandChars escapeChar s.data = pre ++ '&' :: post := by
      rw [← sanitizeChars_eq_expandChars]
      exact h
    obtain ⟨x, _, p1, p2, hf, _, hp2⟩ := expandChars_split escapeChar '&' s.data pre post h'
    exact ⟨p2, (escapeChar_amp_split x p1 p2 hf).2, hp2⟩
  · intro pre post h
    rw [lineBreaks_data] at h
    obtain ⟨x, hx, p1, p2, hf, _, hp2⟩ := expandChars_split _ '<' _ pre post h
    have hx' : ¬ x = '<' := fun e =>
      not_mem_sanitizeChars message.data '<' (Or.inl rfl) (e ▸ hx)
    by_cases hn : x = '\n'
    · simp only [hn, if_true] at hf
      rcases p1 with _ | ⟨a1, _ | ⟨a2, _ | ⟨a3, _ | ⟨a4, _ | ⟨a5, p⟩⟩⟩⟩⟩ <;> simp at hf
      subst hf
      exact hp2
    · simp only [hn, if_false] at hf
      rcases p1 with _ | ⟨a1, p⟩ <;> simp at hf
      exact absurd hf.1 hx'
  · intro pre post h
    rw [lineBreaks_data] at h
    obtain ⟨x, hx, p1, p2, hf, hp1, _⟩ := expandChars_split _ '>' _ pre post h
    have hx' : ¬ x = '>' := fun e =>
      not_mem_sanitizeChars message.data '>' (Or.inr (Or.inl rfl)) (e ▸ hx)
    by_cases hn : x = '\n'
    · simp only [hn, if_true] at hf
      rcases p1 with _ | ⟨a1, _ | ⟨a2, _ | ⟨a3, _ | ⟨a4, _ | ⟨a5, p⟩⟩⟩⟩⟩ <;> simp at hf
      obtain ⟨rfl, rfl, rfl, rfl, _⟩ := hf
      exact hp1
    · simp only [hn, if_false] at hf
      rcases p1 with _ | ⟨a1, p⟩ <;> simp at hf
      exact absurd hf.1 hx'
  · intro hn
    simp only [lineBreaks, sanitizeHtml]
    rw [replaceChar_of_not_mem _ _ _ (newline_not_mem_sanitizeChars message.data hn)]

theorem splitSpace_of_not_mem (l : List Char) (h : ' ' ∉ l) : splitSpace l = [l] := by
  induction l with
  | nil => rfl
  | cons c cs ih =>
    have hc : ¬ c = ' ' := fun e => h (e ▸ List.mem_cons_self c cs)
    have hcs : ' ' ∉ cs := fun m => h (List.mem_cons_of_mem c m)
    simp [splitSpace, hc, ih hcs]

theorem splitSpace_append_space (pre rest : List Char) (h : ' ' ∉ pre) :
    splitSpace (pre ++ ' ' :: rest) = pre :: splitSpace rest := by
  induction pre with
  | nil => simp [splitSpace]
  | cons c cs ih =>
    have hc : ¬ c = ' ' := fun e => h (e ▸ List.mem_cons_self c cs)
    have hcs : ' ' ∉ cs := fun m => h (List.mem_cons_of_mem c m)
    simp [splitSpace, hc, ih hcs]

theorem headerToken_bearer (token : String) (h : ' ' ∉ token.data) :
    headerToken (some ("Bearer " ++ token)) = some token := by
  have hne : ¬ ("Bearer " ++ token) = "" := by
    intro e
    have := congrArg String.data e
    simp [String.data_append] at this
  have hsplit : splitSpace ("Bearer " ++ token).data = ["Bearer".data, token.data] := by
    have : ("Bearer " ++ token).data = "Bearer".data ++ ' ' :: token.data := by
      simp [String.data_append]
    rw [this, splitSpace_append_space _ _ (by decide), splitSpace_of_not_mem _ h]
  unfold headerToken
  simp only [hne, if_false, hsplit]
  rfl

/-- Claim C8 against the code. For every request, the handler runs exactly when
`authHeader && authHeader.split(' ')[1]` is a token that `jwt.verify` accepts, and then with
the decoded identity as `req.user`; an absent header, and a non-empty header without a
second segment, get 401; a token that `jwt.verify` refuses gets 403. But the empty
`Authorization` header, which has no second segment, is passed to `jwt.verify` as the
empty string and gets 403, not 401. -/
theorem authenticateToken_outcomes (codec : JwtCodec) (env : Option String) (now : Nat) :
    (∀ authHeader user, authenticateToken codec env authHeader now = .next user ↔
      ∃ token, headerToken authHeader = some token
        ∧ jwtVerify codec token (jwtSecret env) now = .ok user)
    ∧ authenticateToken codec env none now = .sendStatus 401
    ∧ (∀ h : String, h ≠ "" → (splitSpace h.data)[1]? = none →
        authenticateToken codec env (some h) now = .sendStatus 401)
    ∧ (∀ (h : String) (segment : List Char) (error : JwtError), h ≠ "" →
        (splitSpace h.data)[1]? = some segment →
        jwtVerify codec (String.mk segment) (jwtSecret env) now = .error error →
        authenticateToken codec env (some h) now = .sendStatus 403)
    ∧ ((splitSpace "".data)[1]? = none
        ∧ authenticateToken codec env (some "") now = .sendStatus 403) := by
  refine ⟨?_, rfl, ?_, ?_, by decide, ?_⟩
  · intro authHeader user
    cases ht : headerToken authHeader with
    | none => simp [authenticateToken, ht]
    | some token =>
      cases hv : jwtVerify codec token (jwtSecret env) now with
      | error e => simp [authenticateToken, ht, hv]
      | ok u => simp [authenticateToken, ht, hv]
  · intro h hne hseg
    simp [authenticateToken, headerToken, hne, hseg]
  · intro h segment error hne hseg hv
    simp [authenticateToken, headerToken, hne, hseg, hv]
  · simp [authenticateToken, headerToken, jwtVerify]

/-- Claim C9. For a stored admin username and a password matching its stored hash, when the
wire form of the signed token decodes back to it, is not empty and has no space, `login`
answers 200 with the token signed with the secret `authenticateToken` verifies with, carrying
the admin id and username; `authenticateToken` accepts it as a bearer token at every clock
reading less than 3600 seconds after issuance, handing on that identity, and answers 403 at
every reading from 3600 seconds on. The clock is the JWT clock, in whole seconds. -/
theorem login_token_accepted_for_one_hour (bcrypt : Bcrypt) (codec : JwtCodec)
    (env : Option String) (admins : List Admin) (username password : String) (now : Nat)
    (admin : Admin)
    (hadmin : admins.find? (fun a => a.username = username) = some admin)
    (hpassword : bcrypt.compare password admin.password = true)
    (hdecode : codec.decode (jwtSign codec admin._id admin.username (jwtSecret env) now)
      = some { payload := { id := admin._id, username := admin.username, iat := now,
                            exp := some (now + 3600) },
               key := jwtSecret env })
    (hnonempty : jwtSign codec admin._id admin.username (jwtSecret env) now ≠ "")
    (hnospace : ' ' ∉ (jwtSign codec admin._id admin.username (jwtSecret env) now).data) :
    login bcrypt codec env admins username (some password) now
      = ⟨200, [("token", .str (jwtSign codec admin._id admin.username (jwtSecret env) now))]⟩
    ∧ (∀ t, t < now + 3600 →
        authenticateToken codec env
            (some ("Bearer " ++ jwtSign codec admin._id admin.username (jwtSecret env) now)) t
          = .next { id := admin._id, username := admin.username, iat := now,
                    exp := some (now + 3600) })
    ∧ (∀ t, now + 3600 ≤ t →
        authenticateToken codec env
            (some ("Bearer " ++ jwtSign codec admin._id admin.username (jwtSecret env) now)) t
          = .sendStatus 403) := by
  refine ⟨?_, ?_, ?_⟩
  · simp [login, hadmin, hpassword]
  · intro t ht
    have hlt : ¬ now + 3600 ≤ t := by omega
    simp [authenticateToken, headerToken_bearer _ hnospace, jwtVerify, hnonempty, hdecode, hlt]
  · intro t ht
    simp [authenticateToken, headerToken_bearer _ hnospace, jwtVerify, hnonempty, hdecode, ht]

/-- The claim C9 on the example admin, logging in at clock 1000: the token is accepted at
4599 and refused at 4600. -/
theorem login_token_accepted_for_one_hour_witness :
    login plainBcrypt exampleCodec none [exampleAdmin] "admin" (some "admin123") 1000
      = ⟨200, [("token", .str "aaa.bbb.ccc")]⟩
    ∧ authenticateToken exampleCodec none (some "Bearer aaa.bbb.ccc") 4599
      = .next exampleJwt.payload
    ∧ authenticateToken exampleCodec none (some "Bearer aaa.bbb.ccc") 4600 = .sendStatus 403 :=
  have h := login_token_accepted_for_one_hour plainBcrypt exampleCodec none [exampleAdmin]
    "admin" "admin123" 1000 exampleAdmin (by decide) (by decide) (by decide) (by decide)
    (by decide)
  ⟨h.1, h.2.1 4599 (by decide), h.2.2 4600 (by decide)⟩

theorem falsy_iff (x : Option String) : falsy x = true ↔ x = none ∨ x = some "" := by
  cases x with
  | none => simp [falsy]
  | some s => simp [falsy]

/-- Claim C13. For every contact-form body, the response is 400 with `success: false` and
`Missing required fields` exactly when one of name, email, subject, message is missing or
the empty string, and then no send is attempted; when all four are present the first send
attempted is the notification, addressed to the fixed business address. -/
theorem sendEmail_missing_fields (body : ContactBody) (fullYear : Nat)
    (send : Nat → EmailMessage → SendOutcome) :
    ((sendEmail body fullYear send).1.status = 400 ↔
      (body.name = none ∨ body.name = some "") ∨ (body.email = none ∨ body.email = some "")
        ∨ (body.subject = none ∨ body.subject = some "")
        ∨ (body.message = none ∨ body.message = some ""))
    ∧ ((sendEmail body fullYear send).1.status = 400 →
        (sendEmail body fullYear send).1
            = ⟨400, [("success", .bool false), ("error", .str "Missing required fields")]⟩
          ∧ (sendEmail body fullYear send).2 = [])
    ∧ (¬ (sendEmail body fullYear send).1.status = 400 →
        ∃ rest, (sendEmail body fullYear send).2
            = notificationMessage (body.name.getD "") (body.email.getD "")
                (body.subject.getD "") (body.message.getD "") :: rest
          ∧ (notificationMessage (body.name.getD "") (body.email.getD "")
                (body.subject.getD "") (body.message.getD "")).recipient
              = "abhinav.kotta@gmail.com") := by
  have hcond : (falsy body.name || falsy body.email || falsy body.subject
      || falsy body.message) = true ↔
      (body.name = none ∨ body.name = some "") ∨ (body.email = none ∨ body.email = some "")
        ∨ (body.subject = none ∨ body.subject = some "")
        ∨ (body.message = none ∨ body.message = some "") := by
    simp only [Bool.or_eq_true, falsy_iff, or_assoc]
  have hstatus : (sendEmail body fullYear send).1.status = 400 ↔
      (falsy body.name || falsy body.email || falsy body.subject
        || falsy body.message) = true := by
    by_cases h : (falsy body.name || falsy body.email || falsy body.subject
        || falsy body.message) = true
    · simp [sendEmail, h]
    · simp only [sendEmail, h, if_false, Bool.false_eq_true]
      constructor
      · intro hs
        exfalso
        revert hs
        cases send 0 _ with
        | threw => simp
        | returned d e =>
          cases e with
          | some err => simp
          | none =>
            simp only [Option.isSome_none, Bool.false_eq_true, if_false]
            cases send 1 _ with
            | threw => simp
            | returned d2 e2 => cases e2 <;> simp
      · intro hf
        exact absurd hf (by simp)
  refine ⟨hstatus.trans hcond, ?_, ?_⟩
  · intro hs
    have h := hstatus.1 hs
    simp [sendEmail, h]
  · intro hs
    have h : ¬ (falsy body.name || falsy body.email || falsy body.subject
        || falsy body.message) = true := fun hf => hs (hstatus.2 hf)
    suffices hrest : ∃ rest, (sendEmail body fullYear send).2
        = notificationMessage (body.name.getD "") (body.email.getD "")
            (body.subject.getD "") (body.message.getD "") :: rest from
      let ⟨rest, hr⟩ := hrest
      ⟨rest, hr, rfl⟩
    simp only [sendEmail, h, if_false, Bool.false_eq_true]
    cases send 0 _ with
    | threw => exact ⟨[], rfl⟩
    | returned d e =>
      cases e with
      | some err => exact ⟨[], rfl⟩
      | none =>
        simp only [Option.isSome_none, Bool.false_eq_true, if_false]
        cases send 1 _ with
        | threw => exact ⟨_, rfl⟩
        | returned d2 e2 => cases e2 <;> exact ⟨_, rfl⟩

theorem unescapeFrom_escapeChar (x : Char) (l : List Char) :
    unescapeFrom 0 (escapeChar x ++ l) = x :: unescapeFrom 0 l := by
  by_cases h1 : x = '&'
  · subst h1; simp [escapeChar, unescapeFrom]
  by_cases h2 : x = '<'
  · subst h2; simp [escapeChar, unescapeFrom]
  by_cases h3 : x = '>'
  · subst h3; simp [escapeChar, unescapeFrom]
  by_cases h4 : x = '"'
  · subst h4; simp [escapeChar, unescapeFrom]
  by_cases h5 : x = apostrophe
  · subst h5; simp [escapeChar, unescapeFrom, apostrophe]
  simp [escapeChar, unescapeFrom, h1, h2, h3, h4, h5]

theorem unescapeFrom_sanitizeChars (l : List Char) :
    unescapeFrom 0 (sanitizeChars l) = l := by
  rw [sanitizeChars_eq_expandChars]
  induction l with
  | nil => simp [expandChars, unescapeFrom]
  | cons x xs ih => simp [expandChars, unescapeFrom_escapeChar, ih]

theorem length_escapeChar (x : Char) :
    1 ≤ (escapeChar x).length
      ∧ ((escapeChar x).length = 1 →
          x ≠ '&' ∧ x ≠ '<' ∧ x ≠ '>' ∧ x ≠ '"' ∧ x ≠ apostrophe) := by
  rcases escapeChar_cases x with e | e | e | e | e | ⟨e, h⟩
  all_goals rw [e]
  all_goals first
    | exact ⟨by decide, fun hlen => absurd hlen (by decide)⟩
    | exact ⟨by simp, fun _ => h⟩

theorem length_le_length_expandChars (l : List Char) :
    l.length ≤ (expandChars escapeChar l).length := by
  induction l with
  | nil => simp [expandChars]
  | cons x xs ih =>
    have := (length_escapeChar x).1
    simp only [expandChars, List.length_append, List.length_cons]
    omega

theorem expandChars_escapeChar_eq_self (l : List Char) :
    expandChars escapeChar l = l ↔
      ∀ c ∈ l, c ≠ '&' ∧ c ≠ '<' ∧ c ≠ '>' ∧ c ≠ '"' ∧ c ≠ apostrophe := by
  constructor
  · intro h
    have hlen : (expandChars escapeChar l).length = l.length := by rw [h]
    clear h
    induction l with
    | nil => simp
    | cons x xs ih =>
      have h1 := length_escapeChar x
      have h2 := length_le_length_expandChars xs
      simp only [expandChars, List.length_append, List.length_cons] at hlen
      intro c hc
      rcases List.mem_cons.1 hc with rfl | hc
      · exact h1.2 (by omega)
      · exact ih (by omega) c hc
  · intro h
    induction l with
    | nil => rfl
    | cons x xs ih =>
      obtain ⟨h1, h2, h3, h4, h5⟩ := h x (List.mem_cons_self x xs)
      have hxs := ih (fun c hc => h c (List.mem_cons_of_mem x hc))
      simp [expandChars, escapeChar, h1, h2, h3, h4, h5, hxs]

/-- Claim C14. `sanitizeHtml` is injective, with `unescapeHtml` as an inverse on its
results, and `sanitizeHtml s` is `s` exactly when `s` has none of the characters `&`, `<`,
`>`, `"` and the apostrophe. The order of the replacements matters: with `&` replaced after
`<`, the strings `<` and `&lt;` would get the same result. -/
theorem sanitizeHtml_injective :
    Function.Injective sanitizeHtml
    ∧ (∀ s, unescapeHtml (sanitizeHtml s) = s)
    ∧ (∀ s, sanitizeHtml s = s ↔
        ∀ c ∈ s.data, c ≠ '&' ∧ c ≠ '<' ∧ c ≠ '>' ∧ c ≠ '"' ∧ c ≠ apostrophe)
    ∧ replaceChar '&' "&amp;".data (replaceChar '<' "&lt;".data "<".data)
      = replaceChar '&' "&amp;".data (replaceChar '<' "&lt;".data "&lt;".data) := by
  have hinv : ∀ s, unescapeHtml (sanitizeHtml s) = s := by
    intro s
    simp only [unescapeHtml, sanitizeHtml, unescapeFrom_sanitizeChars]
  refine ⟨?_, hinv, ?_, by decide⟩
  · intro s t h
    rw [← hinv s, ← hinv t, h]
  · intro s
    rw [← expandChars_escapeChar_eq_self, ← sanitizeChars_eq_expandChars]
    constructor
    · intro h
      exact congrArg String.data h
    · intro h
      simp only [sanitizeHtml, h]

theorem requiredString_eq_some (x : Option String) (s : String) :
    requiredString x = some s ↔ x = some s ∧ s ≠ "" := by
  cases x with
  | none => simp [requiredString]
  | some v =>
    by_cases hv : v = ""
    · subst hv
      simp [requiredString]
      intro h
      exact h.symm
    · simp only [requiredString, hv, if_false, Option.some.injEq]
      constructor
      · rintro rfl
        exact ⟨rfl, hv⟩
      · exact fun h => h.1

theorem memberDocument_eq_some (id : String) (name instrument bio image : Option String)
    (isCaptain : Bool) (order : Option Int) (active : Bool) (m : Member)
    (h : memberDocument id name instrument bio image isCaptain order active = some m) :
    m._id = id ∧ name = some m.name ∧ instrument = some m.instrument ∧ bio = some m.bio
      ∧ image = some m.image ∧ m.isCaptain = isCaptain ∧ order = some m.order
      ∧ m.active = active := by
  unfold memberDocument at h
  cases h1 : requiredString name with
  | none => simp [h1] at h
  | some n =>
    cases h2 : requiredString instrument with
    | none => simp [h1, h2] at h
    | some i =>
      cases h3 : requiredString bio with
      | none => simp [h1, h2, h3] at h
      | some b =>
        cases h4 : requiredString image with
        | none => simp [h1, h2, h3, h4] at h
        | some img =>
          cases order with
          | none => simp [h1, h2, h3, h4] at h
          | some o =>
            simp only [h1, h2, h3, h4, Option.some.injEq] at h
            subst h
            exact ⟨rfl, ((requiredString_eq_some _ _).1 h1).1,
              ((requiredString_eq_some _ _).1 h2).1, ((requiredString_eq_some _ _).1 h3).1,
              ((requiredString_eq_some _ _).1 h4).1, rfl, rfl, rfl⟩

theorem performanceDocument_eq_some (id : String)
    (title date venue city image description : Option String) (ticketLink : String)
    (active : Bool) (p : Performance)
    (h : performanceDocument id title date venue city image description ticketLink active
      = some p) :
    p._id = id ∧ title = some p.title ∧ date = some p.date ∧ venue = some p.venue
      ∧ city = some p.city ∧ image = some p.image ∧ description = some p.description
      ∧ p.ticketLink = ticketLink ∧ p.active = active := by
  unfold performanceDocument at h
  cases h1 : requiredString title with
  | none => simp [h1] at h
  | some t =>
    cases h2 : requiredString date with
    | none => simp [h1, h2] at h
    | some d =>
      cases h3 : requiredString venue with
      | none => simp [h1, h2, h3] at h
      | some v =>
        cases h4 : requiredString city with
        | none => simp [h1, h2, h3, h4] at h
        | some c =>
          cases h5 : requiredString image with
          | none => simp [h1, h2, h3, h4, h5] at h
          | some img =>
            cases h6 : requiredString description with
            | none => simp [h1, h2, h3, h4, h5, h6] at h
            | some ds =>
              simp only [h1, h2, h3, h4, h5, h6, Option.some.injEq] at h
              subst h
              exact ⟨rfl, ((requiredString_eq_some _ _).1 h1).1,
                ((requiredString_eq_some _ _).1 h2).1, ((requiredString_eq_some _ _).1 h3).1,
                ((requiredString_eq_some _ _).1 h4).1, ((requiredString_eq_some _ _).1 h5).1,
                ((requiredString_eq_some _ _).1 h6).1, rfl, rfl⟩

theorem uploadSingle_noFile (storage : Storage) (image : Option UploadedFile)
    (h : image = none ∨ ∃ file, image = some file
      ∧ storage.mimetype file.contentType ≠ "image/jpeg"
      ∧ storage.mimetype file.contentType ≠ "image/png"
      ∧ storage.mimetype file.contentType ≠ "image/webp") :
    uploadSingle storage image = .noFile := by
  rcases h with rfl | ⟨file, rfl, h1, h2, h3⟩
  · rfl
  · simp [uploadSingle, fileFilter, h1, h2, h3]

theorem fileFilter_eq_true (file : FileInfo) :
    fileFilter file = true ↔
      file.mimetype = "image/jpeg" ∨ file.mimetype = "image/png"
        ∨ file.mimetype = "image/webp" := by
  simp [fileFilter, or_assoc]

theorem uploadSingle_accepted (storage : Storage) (file : UploadedFile)
    (htype : storage.mimetype file.contentType = "image/jpeg"
      ∨ storage.mimetype file.contentType = "image/png"
      ∨ storage.mimetype file.contentType = "image/webp") :
    uploadSingle storage (some file)
      = if fileSizeLimit ≤ file.size then .limitFileSize
        else .file (storage.uuid ++ storage.extname file.originalname) := by
  have hf : fileFilter ⟨storage.mimetype file.contentType, file.originalname⟩ = true :=
    (fileFilter_eq_true _).2 htype
  simp only [uploadSingle, hf, if_true]

theorem uploadSingle_file (storage : Storage) (file : UploadedFile) (filename : String)
    (h : uploadSingle storage (some file) = .file filename) :
    fileFilter ⟨storage.mimetype file.contentType, file.originalname⟩ = true
      ∧ file.size < fileSizeLimit
      ∧ filename = storage.uuid ++ storage.extname file.originalname := by
  simp only [uploadSingle] at h
  by_cases hf : fileFilter ⟨storage.mimetype file.contentType, file.originalname⟩ = true
  · by_cases hs : fileSizeLimit ≤ file.size
    · simp [hf, hs] at h
    · simp only [hf, hs, if_true, if_false, UploadOutcome.file.injEq] at h
      exact ⟨hf, by omega, h.symm⟩
  · simp [hf] at h

/-- A member creation that answers with a document went through the upload and `save`. -/
theorem createMember_document (auth : AuthOutcome) (storage : Storage)
    (parseInt : String → Option Int) (newId : String) (store : List Member)
    (image : Option UploadedFile) (body : MemberBody) (store1 : List Member) (status : Nat)
    (doc : Member)
    (h : createMember auth storage parseInt newId store image body
      = (store1, .document status doc)) :
    ∃ filename, uploadSingle storage image = .file filename
      ∧ memberDocument newId body.name body.instrument body.bio
          (some ("/uploads/" ++ filename)) (isTrue body.isCaptain)
          (if falsy body.order then some 999 else parseInt (body.order.getD "")) true = some doc
      ∧ store1 = store ++ [doc] ∧ status = 201 := by
  cases auth with
  | sendStatus s => simp [createMember] at h
  | next user =>
    cases hu : uploadSingle storage image with
    | limitFileSize => simp [createMember, hu] at h
    | noFile => simp [createMember, hu] at h
    | file filename =>
      cases hd : memberDocument newId body.name body.instrument body.bio
          (some ("/uploads/" ++ filename)) (isTrue body.isCaptain)
          (if falsy body.order then some 999 else parseInt (body.order.getD "")) true with
      | none => simp [createMember, hu, hd] at h
      | some m =>
        simp only [createMember, hu, hd, Prod.mk.injEq, CrudResponse.document.injEq] at h
        obtain ⟨hs, hst, hdoc⟩ := h
        subst hdoc
        exact ⟨filename, rfl, hd, hs.symm, hst.symm⟩

/-- A performance creation that answers with a document went through the upload and `save`. -/
theorem createPerformance_document (auth : AuthOutcome) (storage : Storage) (newId : String)
    (store : List Performance) (image : Option UploadedFile) (body : PerformanceBody)
    (store1 : List Performance) (status : Nat) (doc : Performance)
    (h : createPerformance auth storage newId store image body
      = (store1, .document status doc)) :
    ∃ filename, uploadSingle storage image = .file filename
      ∧ performanceDocument newId body.title body.date body.venue body.city
          (some ("/uploads/" ++ filename)) body.description
          (ticketLinkOrEmpty body.ticketLink) (isTrue body.active) = some doc
      ∧ store1 = store ++ [doc] ∧ status = 201 := by
  cases auth with
  | sendStatus s => simp [createPerformance] at h
  | next user =>
    cases hu : uploadSingle storage image with
    | limitFileSize => simp [createPerformance, hu] at h
    | noFile => simp [createPerformance, hu] at h
    | file filename =>
      cases hd : performanceDocument newId body.title body.date body.venue body.city
          (some ("/uploads/" ++ filename)) body.description
          (ticketLinkOrEmpty body.ticketLink) (isTrue body.active) with
      | none => simp [createPerformance, hu, hd] at h
      | some p =>
        simp only [createPerformance, hu, hd, Prod.mk.injEq, CrudResponse.document.injEq] at h
        obtain ⟨hs, hst, hdoc⟩ := h
        subst hdoc
        exact ⟨filename, rfl, hd, hs.symm, hst.symm⟩

theorem requiredString_of_falsy (x : Option String) (h : falsy x = true) :
    requiredString x = none := by
  rcases (falsy_iff x).1 h with rfl | rfl <;> simp [requiredString]

theorem uploads_path_ne_empty (filename : String) : "/uploads/" ++ filename ≠ "" := by
  intro e
  have := congrArg String.data e
  simp [String.data_append] at this

theorem memberDocument_valid (id name instrument bio image : String) (isCaptain : Bool)
    (order : Int) (active : Bool) (hname : name ≠ "") (hinstrument : instrument ≠ "")
    (hbio : bio ≠ "") (himage : image ≠ "") :
    memberDocument id (some name) (some instrument) (some bio) (some image) isCaptain
        (some order) active
      = some { _id := id, name := name, instrument := instrument, bio := bio, image := image,
               isCaptain := isCaptain, order := order, active := active } := by
  simp [memberDocument, requiredString, hname, hinstrument, hbio, himage]

theorem memberDocument_invalid (id : String) (name instrument bio image : Option String)
    (isCaptain : Bool) (order : Option Int) (active : Bool)
    (h : falsy name = true ∨ falsy instrument = true ∨ falsy bio = true
      ∨ falsy image = true ∨ order = none) :
    memberDocument id name instrument bio image isCaptain order active = none := by
  unfold memberDocument
  split
  · rename_i o h1 h2 h3 h4
    rcases h with h | h | h | h | h
    · rw [requiredString_of_falsy _ h] at h1; cases h1
    · rw [requiredString_of_falsy _ h] at h2; cases h2
    · rw [requiredString_of_falsy _ h] at h3; cases h3
    · rw [requiredString_of_falsy _ h] at h4; cases h4
    · cases h
  · rfl

theorem performanceDocument_valid (id title date venue city image description : String)
    (ticketLink : String) (active : Bool) (htitle : title ≠ "") (hdate : date ≠ "")
    (hvenue : venue ≠ "") (hcity : city ≠ "") (himage : image ≠ "")
    (hdescription : description ≠ "") :
    performanceDocument id (some title) (some date) (some venue) (some city) (some image)
        (some description) ticketLink active
      = some { _id := id, title := title, date := date, venue := venue, city := city,
               image := image, description := description, ticketLink := ticketLink,
               active := active } := by
  simp [performanceDocument, requiredString, htitle, hdate, hvenue, hcity, himage,
    hdescription]

theorem performanceDocument_invalid (id : String)
    (title date venue city image description : Option String) (ticketLink : String)
    (active : Bool)
    (h : falsy title = true ∨ falsy date = true ∨ falsy venue = true ∨ falsy city = true
      ∨ falsy image = true ∨ falsy description = true) :
    performanceDocument id title date venue city image description ticketLink active
      = none := by
  unfold performanceDocument
  split
  · rename_i h1 h2 h3 h4 h5 h6
    rcases h with h | h | h | h | h | h
    · rw [requiredString_of_falsy _ h] at h1; cases h1
    · rw [requiredString_of_falsy _ h] at h2; cases h2
    · rw [requiredString_of_falsy _ h] at h3; cases h3
    · rw [requiredString_of_falsy _ h] at h4; cases h4
    · rw [requiredString_of_falsy _ h] at h5; cases h5
    · rw [requiredString_of_falsy _ h] at h6; cases h6
  · rfl

/-- The order a member request asks for: `parseInt` of a present, non-empty `order`
field, the default of the route otherwise. -/
theorem orderField_cases (parseInt : String → Option Int) (field : Option String)
    (default order : Int)
    (h : ((field = none ∨ field = some "") ∧ order = default)
      ∨ ∃ o, field = some o ∧ o ≠ "" ∧ parseInt o = some order) :
    (if falsy field then some default else parseInt (field.getD "")) = some order := by
  rcases h with ⟨hf, rfl⟩ | ⟨o, rfl, ho, hp⟩
  · simp [(falsy_iff field).2 hf]
  · simp [falsy, ho, hp]

theorem createMember_of_file (user : JwtPayload) (storage : Storage)
    (parseInt : String → Option Int) (newId : String) (store : List Member)
    (image : Option UploadedFile) (body : MemberBody) (filename : String)
    (hu : uploadSingle storage image = .file filename) :
    createMember (.next user) storage parseInt newId store image body
      = match memberDocument newId body.name body.instrument body.bio
          (some ("/uploads/" ++ filename)) (isTrue body.isCaptain)
          (if falsy body.order then some 999 else parseInt (body.order.getD "")) true with
        | none => (store, .errorMessage 400)
        | some savedMember => (store ++ [savedMember], .document 201 savedMember) := by
  simp only [createMember, hu]

theorem createPerformance_of_file (user : JwtPayload) (storage : Storage) (newId : String)
    (store : List Performance) (image : Option UploadedFile) (body : PerformanceBody)
    (filename : String) (hu : uploadSingle storage image = .file filename) :
    createPerformance (.next user) storage newId store image body
      = match performanceDocument newId body.title body.date body.venue body.city
          (some ("/uploads/" ++ filename)) body.description
          (ticketLinkOrEmpty body.ticketLink) (isTrue body.active) with
        | none => (store, .errorMessage 400)
        | some savedPerformance =>
          (store ++ [savedPerformance], .document 201 savedPerformance) := by
  simp only [createPerformance, hu]

theorem updateMember_of_found (user : JwtPayload) (storage : Storage)
    (parseInt : String → Option Int) (castObjectId : String → Option String)
    (store : List Member) (id : String) (image : Option UploadedFile) (body : MemberBody)
    (oid : String) (member : Member) (path : String)
    (hcast : castObjectId id = some oid)
    (hfind : store.find? (fun m => m._id = oid) = some member)
    (hpath : (∃ filename, uploadSingle storage image = .file filename
        ∧ path = "/uploads/" ++ filename)
      ∨ (uploadSingle storage image = .noFile ∧ path = member.image)) :
    updateMember (.next user) storage parseInt castObjectId store id image body
      = match memberDocument member._id body.name body.instrument body.bio (some path)
          (isTrue body.isCaptain)
          (if falsy body.order then some member.order else parseInt (body.order.getD ""))
          (isTrue body.active) with
        | none => (store, .errorMessage 400)
        | some updatedMember =>
          (replaceFirst (fun m => m._id = oid) updatedMember store,
            .document 200 updatedMember) := by
  rcases hpath with ⟨filename, hu, rfl⟩ | ⟨hu, rfl⟩
  · simp only [updateMember, hu, hcast, hfind]
  · simp only [updateMember, hu, hcast, hfind]

theorem updatePerformance_of_found (user : JwtPayload) (storage : Storage)
    (castObjectId : String → Option String) (store : List Performance) (id : String)
    (image : Option UploadedFile) (body : PerformanceBody) (oid : String)
    (performance : Performance) (path : String)
    (hcast : castObjectId id = some oid)
    (hfind : store.find? (fun p => p._id = oid) = some performance)
    (hpath : (∃ filename, uploadSingle storage image = .file filename
        ∧ path = "/uploads/" ++ filename)
      ∨ (uploadSingle storage image = .noFile ∧ path = performance.image)) :
    updatePerformance (.next user) storage castObjectId store id image body
      = match performanceDocument performance._id body.title body.date body.venue body.city
          (some path) body.description (ticketLinkOrEmpty body.ticketLink)
          (isTrue body.active) with
        | none => (store, .errorMessage 400)
        | some updatedPerformance =>
          (replaceFirst (fun p => p._id = oid) updatedPerformance store,
            .document 200 updatedPerformance) := by
  rcases hpath with ⟨filename, hu, rfl⟩ | ⟨hu, rfl⟩
  · simp only [updatePerformance, hu, hcast, hfind]
  · simp only [updatePerformance, hu, hcast, hfind]

/-- Claim C11. For every authenticated create request, member or performance: when it has
no file, or a file whose declared type, as the upload library reads it, is none of
`image/jpeg`, `image/png`, `image/webp`, the response is 400 `Image is required` and the
store is unchanged. A file of one of the three types passes the filter and the response is
never `Image is required`: at or over the size limit the upload fails the request, below it
a request whose required fields are present creates the record, appended to the store with
the image path `/uploads/` followed by the stored file name, and a request with a required
field missing is refused by validation. The examples create a member from a JPEG, one
from a file declared `IMAGE/JPEG`, and a performance from a PNG. -/
theorem create_requires_accepted_image (user : JwtPayload) (storage : Storage)
    (parseInt : String → Option Int) (newId : String) (members : List Member)
    (performances : List Performance) (image : Option UploadedFile) (memberBody : MemberBody)
    (performanceBody : PerformanceBody) :
    ((image = none ∨ ∃ file, image = some file
          ∧ storage.mimetype file.contentType ≠ "image/jpeg"
          ∧ storage.mimetype file.contentType ≠ "image/png"
          ∧ storage.mimetype file.contentType ≠ "image/webp") →
      createMember (.next user) storage parseInt newId members image memberBody
          = (members, .message 400 "Image is required")
        ∧ createPerformance (.next user) storage newId performances image performanceBody
          = (performances, .message 400 "Image is required"))
    ∧ (∀ file, image = some file →
        (storage.mimetype file.contentType = "image/jpeg"
          ∨ storage.mimetype file.contentType = "image/png"
          ∨ storage.mimetype file.contentType = "image/webp") →
        fileFilter ⟨storage.mimetype file.contentType, file.originalname⟩ = true
        ∧ (createMember (.next user) storage parseInt newId members image memberBody).2
            ≠ .message 400 "Image is required"
        ∧ (createPerformance (.next user) storage newId performances image performanceBody).2
            ≠ .message 400 "Image is required"
        ∧ (fileSizeLimit ≤ file.size →
            createMember (.next user) storage parseInt newId members image memberBody
                = (members, .uploadError 500)
              ∧ createPerformance (.next user) storage newId performances image
                  performanceBody
                = (performances, .uploadError 500))
        ∧ (file.size < fileSizeLimit →
            (∀ name instrument bio rank,
              memberBody.name = some name → name ≠ "" →
              memberBody.instrument = some instrument → instrument ≠ "" →
              memberBody.bio = some bio → bio ≠ "" →
              (((memberBody.order = none ∨ memberBody.order = some "") ∧ rank = 999)
                ∨ ∃ o, memberBody.order = some o ∧ o ≠ "" ∧ parseInt o = some rank) →
              createMember (.next user) storage parseInt newId members image memberBody
                = (members ++ [
                    { _id := newId, name := name, instrument := instrument, bio := bio,
                      image := "/uploads/"
                        ++ (storage.uuid ++ storage.extname file.originalname),
                      isCaptain := decide (memberBody.isCaptain = some "true"),
                      order := rank, active := true }],
                   .document 201
                    { _id := newId, name := name, instrument := instrument, bio := bio,
                      image := "/uploads/"
                        ++ (storage.uuid ++ storage.extname file.originalname),
                      isCaptain := decide (memberBody.isCaptain = some "true"),
                      order := rank, active := true }))
            ∧ ((falsy memberBody.name = true ∨ falsy memberBody.instrument = true
                  ∨ falsy memberBody.bio = true
                  ∨ ∃ o, memberBody.order = some o ∧ o ≠ "" ∧ parseInt o = none) →
                createMember (.next user) storage parseInt newId members image memberBody
                  = (members, .errorMessage 400))
            ∧ (∀ title date venue city description,
                performanceBody.title = some title → title ≠ "" →
                performanceBody.date = some date → date ≠ "" →
                performanceBody.venue = some venue → venue ≠ "" →
                performanceBody.city = some city → city ≠ "" →
                performanceBody.description = some description → description ≠ "" →
                createPerformance (.next user) storage newId performances image
                    performanceBody
                  = (performances ++ [
                      { _id := newId, title := title, date := date, venue := venue,
                        city := city,
                        image := "/uploads/"
                          ++ (storage.uuid ++ storage.extname file.originalname),
                        description := description,
                        ticketLink := ticketLinkOrEmpty performanceBody.ticketLink,
                        active := decide (performanceBody.active = some "true") }],
                     .document 201
                      { _id := newId, title := title, date := date, venue := venue,
                        city := city,
                        image := "/uploads/"
                          ++ (storage.uuid ++ storage.extname file.originalname),
                        description := description,
                        ticketLink := ticketLinkOrEmpty performanceBody.ticketLink,
                        active := decide (performanceBody.active = some "true") }))
            ∧ ((falsy performanceBody.title = true ∨ falsy performanceBody.date = true
                  ∨ falsy performanceBody.venue = true ∨ falsy performanceBody.city = true
                  ∨ falsy performanceBody.description = true) →
                createPerformance (.next user) storage newId performances image
                    performanceBody
                  = (performances, .errorMessage 400)))
        ∧ (∀ store1 status doc,
            createMember (.next user) storage parseInt newId members image memberBody
              = (store1, .document status doc) →
            status = 201 ∧ store1 = members ++ [doc]
              ∧ doc.image = "/uploads/" ++ (storage.uuid ++ storage.extname file.originalname))
        ∧ (∀ store1 status doc,
            createPerformance (.next user) storage newId performances image performanceBody
              = (store1, .document status doc) →
            status = 201 ∧ store1 = performances ++ [doc]
              ∧ doc.image = "/uploads/" ++ (storage.uuid ++ storage.extname file.originalname)))
    ∧ createMember (.next exampleJwt.payload) exampleStorage exampleParseInt
        "65f0c0ffee0123456789ab02" []
        (some (exampleUpload "image/jpeg")) (exampleMemberBody (some "5"))
      = ([{ _id := "65f0c0ffee0123456789ab02", name := "Ann", instrument := "Tabla",
            bio := "bio", image := "/uploads/0b2c4a1e-7d3f-4e5a-9c8b-1f2e3d4c5b6a.jpg",
            isCaptain := true, order := 5, active := true }],
         .document 201
          { _id := "65f0c0ffee0123456789ab02", name := "Ann", instrument := "Tabla",
            bio := "bio", image := "/uploads/0b2c4a1e-7d3f-4e5a-9c8b-1f2e3d4c5b6a.jpg",
            isCaptain := true, order := 5, active := true })
    ∧ (createMember (.next exampleJwt.payload) exampleStorage exampleParseInt
        "65f0c0ffee0123456789ab02" []
        (some (exampleUpload "IMAGE/JPEG")) (exampleMemberBody none)).2
      = .document 201
          { _id := "65f0c0ffee0123456789ab02", name := "Ann", instrument := "Tabla",
            bio := "bio", image := "/uploads/0b2c4a1e-7d3f-4e5a-9c8b-1f2e3d4c5b6a.jpg",
            isCaptain := true, order := 999, active := true }
    ∧ createPerformance (.next exampleJwt.payload) exampleStorage "65f0c0ffee0123456789ab03"
        [] (some (exampleUpload "image/png")) (examplePerformanceBody (some "true"))
      = ([{ _id := "65f0c0ffee0123456789ab03", title := "Spring Show", date := "2999-01-01",
            venue := "Hall", city := "Orlando",
            image := "/uploads/0b2c4a1e-7d3f-4e5a-9c8b-1f2e3d4c5b6a.jpg", description := "d",
            ticketLink := "", active := true }],
         .document 201
          { _id := "65f0c0ffee0123456789ab03", title := "Spring Show", date := "2999-01-01",
            venue := "Hall", city := "Orlando",
            image := "/uploads/0b2c4a1e-7d3f-4e5a-9c8b-1f2e3d4c5b6a.jpg", description := "d",
            ticketLink := "", active := true }) := by
  refine ⟨?_, ?_, by decide, by decide, by decide⟩
  · intro h
    have hu := uploadSingle_noFile storage image h
    simp [createMember, createPerformance, hu]
  · rintro file rfl htype
    have hacc := uploadSingle_accepted storage file htype
    refine ⟨(fileFilter_eq_true _).2 htype, ?_, ?_, ?_, ?_, ?_, ?_⟩
    · by_cases hs : fileSizeLimit ≤ file.size
      · simp [createMember, hacc, hs]
      · rw [if_neg hs] at hacc
        rw [createMember_of_file _ _ _ _ _ _ _ _ hacc]
        split <;> simp
    · by_cases hs : fileSizeLimit ≤ file.size
      · simp [createPerformance, hacc, hs]
      · rw [if_neg hs] at hacc
        rw [createPerformance_of_file _ _ _ _ _ _ _ hacc]
        split <;> simp
    · intro hs
      simp [createMember, createPerformance, hacc, hs]
    · intro hs
      have hs' : ¬ fileSizeLimit ≤ file.size := by omega
      rw [if_neg hs'] at hacc
      refine ⟨?_, ?_, ?_, ?_⟩
      · intro name instrument bio rank hn hn' hi hi' hb hb' hord
        rw [createMember_of_file _ _ _ _ _ _ _ _ hacc, hn, hi, hb,
          orderField_cases parseInt memberBody.order 999 rank hord,
          memberDocument_valid _ _ _ _ _ _ _ _ hn' hi' hb' (uploads_path_ne_empty _)]
        rfl
      · intro hbad
        have hnone : memberDocument newId memberBody.name memberBody.instrument
            memberBody.bio
            (some ("/uploads/" ++ (storage.uuid ++ storage.extname file.originalname)))
            (isTrue memberBody.isCaptain)
            (if falsy memberBody.order then some 999
              else parseInt (memberBody.order.getD "")) true = none := by
          apply memberDocument_invalid
          rcases hbad with h | h | h | ⟨o, ho, hne, hp⟩
          · simp [h]
          · simp [h]
          · simp [h]
          · simp [ho, falsy, hne, hp]
        rw [createMember_of_file _ _ _ _ _ _ _ _ hacc, hnone]
      · intro title date venue city description ht ht' hd hd' hv hv' hc hc' hde hde'
        rw [createPerformance_of_file _ _ _ _ _ _ _ hacc, ht, hd, hv, hc, hde,
          performanceDocument_valid _ _ _ _ _ _ _ _ _ ht' hd' hv' hc'
            (uploads_path_ne_empty _) hde']
        rfl
      · intro hbad
        have hnone : performanceDocument newId performanceBody.title performanceBody.date
            performanceBody.venue performanceBody.city
            (some ("/uploads/" ++ (storage.uuid ++ storage.extname file.originalname)))
            performanceBody.description (ticketLinkOrEmpty performanceBody.ticketLink)
            (isTrue performanceBody.active) = none := by
          apply performanceDocument_invalid
          rcases hbad with h | h | h | h | h <;> simp [h]
        rw [createPerformance_of_file _ _ _ _ _ _ _ hacc, hnone]
    · intro store1 status doc h
      obtain ⟨filename, hu, hd, hs, hst⟩ := createMember_document _ _ _ _ _ _ _ _ _ _ h
      have hname := (uploadSingle_file storage file filename hu).2.2
      have himg := (memberDocument_eq_some _ _ _ _ _ _ _ _ _ hd).2.2.2.2.1
      rw [hname] at himg
      exact ⟨hst, hs, (Option.some.inj himg).symm⟩
    · intro store1 status doc h
      obtain ⟨filename, hu, hd, hs, hst⟩ := createPerformance_document _ _ _ _ _ _ _ _ _ h
      have hname := (uploadSingle_file storage file filename hu).2.2
      have himg := (performanceDocument_eq_some _ _ _ _ _ _ _ _ _ _ hd).2.2.2.2.2.1
      rw [hname] at himg
      exact ⟨hst, hs, (Option.some.inj himg).symm⟩

/-- A member update that answers with a document found the member and passed `save`. -/
theorem updateMember_document (auth : AuthOutcome) (storage : Storage)
    (parseInt : String → Option Int) (castObjectId : String → Option String)
    (store : List Member) (id : String) (image : Option UploadedFile) (body : MemberBody)
    (store1 : List Member) (status : Nat) (doc : Member)
    (h : updateMember auth storage parseInt castObjectId store id image body
      = (store1, .document status doc)) :
    ∃ oid member, castObjectId id = some oid
      ∧ store.find? (fun m => m._id = oid) = some member
      ∧ memberDocument member._id body.name body.instrument body.bio
          (some (match uploadSingle storage image with
            | .file filename => "/uploads/" ++ filename
            | _ => member.image))
          (isTrue body.isCaptain)
          (if falsy body.order then some member.order else parseInt (body.order.getD ""))
          (isTrue body.active) = some doc
      ∧ store1 = replaceFirst (fun m => m._id = oid) doc store ∧ status = 200 := by
  cases auth with
  | sendStatus s => simp [updateMember] at h
  | next user =>
    cases hu : uploadSingle storage image with
    | limitFileSize => simp [updateMember, hu] at h
    | noFile =>
      cases hc : castObjectId id with
      | none => simp [updateMember, hu, hc] at h
      | some oid =>
        cases hf : store.find? (fun m => m._id = oid) with
        | none => simp [updateMember, hu, hc, hf] at h
        | some member =>
          simp only [updateMember, hu, hc, hf] at h
          split at h
          · simp at h
          · rename_i m hd
            simp only [Prod.mk.injEq, CrudResponse.document.injEq] at h
            obtain ⟨hs, hst, hdoc⟩ := h
            subst hdoc
            exact ⟨oid, member, rfl, hf, hd, hs.symm, hst.symm⟩
    | file filename =>
      cases hc : castObjectId id with
      | none => simp [updateMember, hu, hc] at h
      | some oid =>
        cases hf : store.find? (fun m => m._id = oid) with
        | none => simp [updateMember, hu, hc, hf] at h
        | some member =>
          simp only [updateMember, hu, hc, hf] at h
          split at h
          · simp at h
          · rename_i m hd
            simp only [Prod.mk.injEq, CrudResponse.document.injEq] at h
            obtain ⟨hs, hst, hdoc⟩ := h
            subst hdoc
            exact ⟨oid, member, rfl, hf, hd, hs.symm, hst.symm⟩

/-- A performance update that answers with a document found the record and passed `save`. -/
theorem updatePerformance_document (auth : AuthOutcome) (storage : Storage)
    (castObjectId : String → Option String) (store : List Performance) (id : String)
    (image : Option UploadedFile) (body : PerformanceBody) (store1 : List Performance)
    (status : Nat) (doc : Performance)
    (h : updatePerformance auth storage castObjectId store id image body
      = (store1, .document status doc)) :
    ∃ oid performance, castObjectId id = some oid
      ∧ store.find? (fun p => p._id = oid) = some performance
      ∧ performanceDocument performance._id body.title body.date body.venue body.city
          (some (match uploadSingle storage image with
            | .file filename => "/uploads/" ++ filename
            | _ => performance.image))
          body.description (ticketLinkOrEmpty body.ticketLink) (isTrue body.active) = some doc
      ∧ store1 = replaceFirst (fun p => p._id = oid) doc store ∧ status = 200 := by
  cases auth with
  | sendStatus s => simp [updatePerformance] at h
  | next user =>
    cases hu : uploadSingle storage image with
    | limitFileSize => simp [updatePerformance, hu] at h
    | noFile =>
      cases hc : castObjectId id with
      | none => simp [updatePerformance, hu, hc] at h
      | some oid =>
        cases hf : store.find? (fun p => p._id = oid) with
        | none => simp [updatePerformance, hu, hc, hf] at h
        | some performance =>
          simp only [updatePerformance, hu, hc, hf] at h
          split at h
          · simp at h
          · rename_i p hd
            simp only [Prod.mk.injEq, CrudResponse.document.injEq] at h
            obtain ⟨hs, hst, hdoc⟩ := h
            subst hdoc
            exact ⟨oid, performance, rfl, hf, hd, hs.symm, hst.symm⟩
    | file filename =>
      cases hc : castObjectId id with
      | none => simp [updatePerformance, hu, hc] at h
      | some oid =>
        cases hf : store.find? (fun p => p._id = oid) with
        | none => simp [updatePerformance, hu, hc, hf] at h
        | some performance =>
          simp only [updatePerformance, hu, hc, hf] at h
          split at h
          · simp at h
          · rename_i p hd
            simp only [Prod.mk.injEq, CrudResponse.document.injEq] at h
            obtain ⟨hs, hst, hdoc⟩ := h
            subst hdoc
            exact ⟨oid, performance, rfl, hf, hd, hs.symm, hst.symm⟩

theorem updateMember_store (auth : AuthOutcome) (storage : Storage)
    (parseInt : String → Option Int) (castObjectId : String → Option String)
    (store : List Member) (id : String) (image : Option UploadedFile) (body : MemberBody) :
    (updateMember auth storage parseInt castObjectId store id image body).1 = store
      ∨ ∃ status doc, (updateMember auth storage parseInt castObjectId store id image body).2
          = .document status doc := by
  unfold updateMember
  repeat' split
  all_goals first
    | (simp; done)
    | (dsimp only; split <;> simp)

theorem updatePerformance_store (auth : AuthOutcome) (storage : Storage)
    (castObjectId : String → Option String) (store : List Performance) (id : String)
    (image : Option UploadedFile) (body : PerformanceBody) :
    (updatePerformance auth storage castObjectId store id image body).1 = store
      ∨ ∃ status doc, (updatePerformance auth storage castObjectId store id image body).2
          = .document status doc := by
  unfold updatePerformance
  repeat' split
  all_goals first
    | (simp; done)
    | (dsimp only; split <;> simp)

/-- Claim C12, as stated, fails: the same member update, which carries no `order`, leaves
the order 5 in a record that held 5 and the order 1 in a record that held 1, so `order` is
not overwritten whatever the record held; and an update whose request has no `name` is
refused by validation and leaves the stored record as it was. -/
theorem updateMember_keeps_order_without_order_field :
    (updateMember (.next exampleJwt.payload) exampleStorage exampleParseInt some
        [exampleMember 5] "65f0c0ffee0123456789ab01" none (exampleMemberBody none)).1
      = [{ exampleMember 5 with instrument := "Tabla", bio := "bio", isCaptain := true }]
    ∧ (updateMember (.next exampleJwt.payload) exampleStorage exampleParseInt some
        [exampleMember 1] "65f0c0ffee0123456789ab01" none (exampleMemberBody none)).1
      = [{ exampleMember 1 with instrument := "Tabla", bio := "bio", isCaptain := true }]
    ∧ updateMember (.next exampleJwt.payload) exampleStorage exampleParseInt some
        [exampleMember 5] "65f0c0ffee0123456789ab01" none
        { exampleMemberBody (some "7") with name := none }
      = ([exampleMember 5], .errorMessage 400) := by
  decide

/-- Claim C12, amended. For an update of an existing member or performance: when every
required text field of the request is present and not empty (and a present `order` parses),
the response is 200 with the new document, which replaces the stored one and holds the
stored id, the image path `/uploads/` and the new file name if an upload was kept and the
stored path if there was none, each text field of the request, each flag true exactly when
the request's string is `true`, for a member the `order` of the request when it has one and
the stored order when it has none, for a performance the `ticketLink` of the request, empty
when it has none; when a required field is missing or empty the response is 400 and the
store is unchanged. An id that is no id gets 400, an id of no record 404. Every update
that answers with a document is of that form, and any other answer leaves the store
unchanged. The examples update a member with `order` 7 and a new JPEG, and a performance
without an upload. -/
theorem update_overwrites_fields (user : JwtPayload) (storage : Storage)
    (parseInt : String → Option Int) (castObjectId : String → Option String)
    (members : List Member) (performances : List Performance) (id : String)
    (image : Option UploadedFile) (memberBody : MemberBody) (performanceBody : PerformanceBody) :
    (∀ oid member path, castObjectId id = some oid →
      members.find? (fun m => m._id = oid) = some member →
      ((∃ filename, uploadSingle storage image = .file filename
          ∧ path = "/uploads/" ++ filename)
        ∨ (uploadSingle storage image = .noFile ∧ path = member.image)) →
      (∀ name instrument bio rank,
        memberBody.name = some name → name ≠ "" →
        memberBody.instrument = some instrument → instrument ≠ "" →
        memberBody.bio = some bio → bio ≠ "" → path ≠ "" →
        (((memberBody.order = none ∨ memberBody.order = some "") ∧ rank = member.order)
          ∨ ∃ o, memberBody.order = some o ∧ o ≠ "" ∧ parseInt o = some rank) →
        updateMember (.next user) storage parseInt castObjectId members id image memberBody
          = (replaceFirst (fun m => m._id = oid)
              { _id := member._id, name := name, instrument := instrument, bio := bio,
                image := path, isCaptain := decide (memberBody.isCaptain = some "true"),
                order := rank, active := decide (memberBody.active = some "true") } members,
             .document 200
              { _id := member._id, name := name, instrument := instrument, bio := bio,
                image := path, isCaptain := decide (memberBody.isCaptain = some "true"),
                order := rank, active := decide (memberBody.active = some "true") }))
      ∧ ((falsy memberBody.name = true ∨ falsy memberBody.instrument = true
            ∨ falsy memberBody.bio = true ∨ path = ""
            ∨ ∃ o, memberBody.order = some o ∧ o ≠ "" ∧ parseInt o = none) →
          updateMember (.next user) storage parseInt castObjectId members id image memberBody
            = (members, .errorMessage 400)))
    ∧ (∀ oid performance path, castObjectId id = some oid →
      performances.find? (fun p => p._id = oid) = some performance →
      ((∃ filename, uploadSingle storage image = .file filename
          ∧ path = "/uploads/" ++ filename)
        ∨ (uploadSingle storage image = .noFile ∧ path = performance.image)) →
      (∀ title date venue city description,
        performanceBody.title = some title → title ≠ "" →
        performanceBody.date = some date → date ≠ "" →
        performanceBody.venue = some venue → venue ≠ "" →
        performanceBody.city = some city → city ≠ "" →
        performanceBody.description = some description → description ≠ "" → path ≠ "" →
        updatePerformance (.next user) storage castObjectId performances id image
            performanceBody
          = (replaceFirst (fun p => p._id = oid)
              { _id := performance._id, title := title, date := date, venue := venue,
                city := city, image := path, description := description,
                ticketLink := ticketLinkOrEmpty performanceBody.ticketLink,
                active := decide (performanceBody.active = some "true") } performances,
             .document 200
              { _id := performance._id, title := title, date := date, venue := venue,
                city := city, image := path, description := description,
                ticketLink := ticketLinkOrEmpty performanceBody.ticketLink,
                active := decide (performanceBody.active = some "true") }))
      ∧ ((falsy performanceBody.title = true ∨ falsy performanceBody.date = true
            ∨ falsy performanceBody.venue = true ∨ falsy performanceBody.city = true
            ∨ falsy performanceBody.description = true ∨ path = "") →
          updatePerformance (.next user) storage castObjectId performances id image
              performanceBody
            = (performances, .errorMessage 400)))
    ∧ (uploadSingle storage image ≠ .limitFileSize →
        (castObjectId id = none →
          updateMember (.next user) storage parseInt castObjectId members id image memberBody
              = (members, .errorMessage 400)
            ∧ updatePerformance (.next user) storage castObjectId performances id image
                performanceBody
              = (performances, .errorMessage 400))
        ∧ (∀ oid, castObjectId id = some oid →
            (members.find? (fun m => m._id = oid) = none →
              updateMember (.next user) storage parseInt castObjectId members id image
                  memberBody
                = (members, .message 404 "Member not found"))
            ∧ (performances.find? (fun p => p._id = oid) = none →
              updatePerformance (.next user) storage castObjectId performances id image
                  performanceBody
                = (performances, .message 404 "Performance not found"))))
    ∧ (∀ store1 status doc,
      updateMember (.next user) storage parseInt castObjectId members id image memberBody
        = (store1, .document status doc) →
      ∃ oid member, castObjectId id = some oid
        ∧ members.find? (fun m => m._id = oid) = some member
        ∧ status = 200 ∧ store1 = replaceFirst (fun m => m._id = oid) doc members
        ∧ doc._id = member._id
        ∧ memberBody.name = some doc.name ∧ memberBody.instrument = some doc.instrument
        ∧ memberBody.bio = some doc.bio
        ∧ doc.isCaptain = decide (memberBody.isCaptain = some "true")
        ∧ doc.active = decide (memberBody.active = some "true")
        ∧ ((memberBody.order = none ∨ memberBody.order = some "") → doc.order = member.order)
        ∧ (∀ order, memberBody.order = some order → order ≠ "" →
            parseInt order = some doc.order)
        ∧ (∀ filename, uploadSingle storage image = .file filename →
            doc.image = "/uploads/" ++ filename)
        ∧ (uploadSingle storage image = .noFile → doc.image = member.image))
    ∧ (∀ store1 status doc,
      updatePerformance (.next user) storage castObjectId performances id image performanceBody
        = (store1, .document status doc) →
      ∃ oid performance, castObjectId id = some oid
        ∧ performances.find? (fun p => p._id = oid) = some performance
        ∧ status = 200 ∧ store1 = replaceFirst (fun p => p._id = oid) doc performances
        ∧ doc._id = performance._id
        ∧ performanceBody.title = some doc.title ∧ performanceBody.date = some doc.date
        ∧ performanceBody.venue = some doc.venue ∧ performanceBody.city = some doc.city
        ∧ performanceBody.description = some doc.description
        ∧ ((performanceBody.ticketLink = none ∨ performanceBody.ticketLink = some "") →
            doc.ticketLink = "")
        ∧ (∀ link, performanceBody.ticketLink = some link → doc.ticketLink = link)
        ∧ doc.active = decide (performanceBody.active = some "true")
        ∧ (∀ filename, uploadSingle storage image = .file filename →
            doc.image = "/uploads/" ++ filename)
        ∧ (uploadSingle storage image = .noFile → doc.image = performance.image))
    ∧ ((updateMember (.next user) storage parseInt castObjectId members id image
          memberBody).1 = members
        ∨ ∃ status doc, (updateMember (.next user) storage parseInt castObjectId members id
          image memberBody).2 = .document status doc)
    ∧ ((updatePerformance (.next user) storage castObjectId performances id image
          performanceBody).1 = performances
        ∨ ∃ status doc, (updatePerformance (.next user) storage castObjectId performances id
          image performanceBody).2 = .document status doc)
    ∧ updateMember (.next exampleJwt.payload) exampleStorage exampleParseInt some
        [exampleMember 5] "65f0c0ffee0123456789ab01" (some (exampleUpload "image/jpeg"))
        { exampleMemberBody (some "7") with active := none }
      = ([{ _id := "65f0c0ffee0123456789ab01", name := "Ann", instrument := "Tabla",
            bio := "bio", image := "/uploads/0b2c4a1e-7d3f-4e5a-9c8b-1f2e3d4c5b6a.jpg",
            isCaptain := true, order := 7, active := false }],
         .document 200
          { _id := "65f0c0ffee0123456789ab01", name := "Ann", instrument := "Tabla",
            bio := "bio", image := "/uploads/0b2c4a1e-7d3f-4e5a-9c8b-1f2e3d4c5b6a.jpg",
            isCaptain := true, order := 7, active := false })
    ∧ updatePerformance (.next exampleJwt.payload) exampleStorage some
        [examplePerformance "65f0c0ffee0123456789ab03" "2020-01-01" false]
        "65f0c0ffee0123456789ab03" none
        { examplePerformanceBody (some "true") with ticketLink := some "https://t.example" }
      = ([{ _id := "65f0c0ffee0123456789ab03", title := "Spring Show", date := "2999-01-01",
            venue := "Hall", city := "Orlando", image := "/uploads/a.jpg", description := "d",
            ticketLink := "https://t.example", active := true }],
         .document 200
          { _id := "65f0c0ffee0123456789ab03", title := "Spring Show", date := "2999-01-01",
            venue := "Hall", city := "Orlando", image := "/uploads/a.jpg", description := "d",
            ticketLink := "https://t.example", active := true })
    ∧ updatePerformance (.next exampleJwt.payload) exampleStorage some
        [examplePerformance "65f0c0ffee0123456789ab03" "2020-01-01" false]
        "65f0c0ffee0123456789ab03" none
        { examplePerformanceBody (some "true") with title := none }
      = ([examplePerformance "65f0c0ffee0123456789ab03" "2020-01-01" false],
         .errorMessage 400) := by
  refine ⟨?_, ?_, ?_, ?_, ?_, updateMember_store _ _ _ _ _ _ _ _,
    updatePerformance_store _ _ _ _ _ _ _, by decide, by decide, by decide⟩
  · intro oid member path hcast hfind hpath
    have heq := updateMember_of_found user storage parseInt castObjectId members id image
      memberBody oid member path hcast hfind hpath
    constructor
    · intro name instrument bio rank hn hn' hi hi' hb hb' hp hord
      rw [heq, hn, hi, hb, orderField_cases parseInt memberBody.order member.order rank hord,
        memberDocument_valid _ _ _ _ _ _ _ _ hn' hi' hb' hp]
      rfl
    · intro hbad
      have hnone : memberDocument member._id memberBody.name memberBody.instrument
          memberBody.bio (some path) (isTrue memberBody.isCaptain)
          (if falsy memberBody.order then some member.order
            else parseInt (memberBody.order.getD "")) (isTrue memberBody.active) = none := by
        apply memberDocument_invalid
        rcases hbad with h | h | h | h | ⟨o, ho, hne, hp⟩
        · simp [h]
        · simp [h]
        · simp [h]
        · simp [falsy, h]
        · simp [ho, falsy, hne, hp]
      rw [heq, hnone]
  · intro oid performance path hcast hfind hpath
    have heq := updatePerformance_of_found user storage castObjectId performances id image
      performanceBody oid performance path hcast hfind hpath
    constructor
    · intro title date venue city description ht ht' hd hd' hv hv' hc hc' hde hde' hp
      rw [heq, ht, hd, hv, hc, hde,
        performanceDocument_valid _ _ _ _ _ _ _ _ _ ht' hd' hv' hc' hp hde']
      rfl
    · intro hbad
      have hnone : performanceDocument performance._id performanceBody.title
          performanceBody.date performanceBody.venue performanceBody.city (some path)
          performanceBody.description (ticketLinkOrEmpty performanceBody.ticketLink)
          (isTrue performanceBody.active) = none := by
        apply performanceDocument_invalid
        rcases hbad with h | h | h | h | h | h
        · simp [h]
        · simp [h]
        · simp [h]
        · simp [h]
        · simp [h]
        · simp [falsy, h]
      rw [heq, hnone]
  · intro hlimit
    constructor
    · intro hcast
      constructor
      · cases hu : uploadSingle storage image with
        | limitFileSize => exact absurd hu hlimit
        | noFile => simp [updateMember, hu, hcast]
        | file filename => simp [updateMember, hu, hcast]
      · cases hu : uploadSingle storage image with
        | limitFileSize => exact absurd hu hlimit
        | noFile => simp [updatePerformance, hu, hcast]
        | file filename => simp [updatePerformance, hu, hcast]
    · intro oid hcast
      constructor
      · intro hfind
        cases hu : uploadSingle storage image with
        | limitFileSize => exact absurd hu hlimit
        | noFile => simp [updateMember, hu, hcast, hfind]
        | file filename => simp [updateMember, hu, hcast, hfind]
      · intro hfind
        cases hu : uploadSingle storage image with
        | limitFileSize => exact absurd hu hlimit
        | noFile => simp [updatePerformance, hu, hcast, hfind]
        | file filename => simp [updatePerformance, hu, hcast, hfind]
  · intro store1 status doc h
    obtain ⟨oid, member, hc, hf, hd, hs, hst⟩ := updateMember_document _ _ _ _ _ _ _ _ _ _ _ h
    obtain ⟨hid, hn, hi, hb, himg, hcap, hord, hact⟩ := memberDocument_eq_some _ _ _ _ _ _ _ _ _ hd
    refine ⟨oid, member, hc, hf, hst, hs, hid, hn, hi, hb, ?_, ?_, ?_, ?_, ?_, ?_⟩
    · rw [hcap]; rfl
    · rw [hact]; rfl
    · intro hno
      have hfalsy : falsy memberBody.order = true := (falsy_iff _).2 hno
      rw [hfalsy] at hord
      simpa using hord.symm
    · intro order ho hne
      have hfalsy : falsy (some order) = false := by
        simp [falsy, hne]
      rw [ho, hfalsy] at hord
      simpa using hord
    · intro filename hu
      rw [hu] at himg
      exact (Option.some.inj himg).symm
    · intro hu
      rw [hu] at himg
      exact (Option.some.inj himg).symm
  · intro store1 status doc h
    obtain ⟨oid, performance, hc, hf, hd, hs, hst⟩ :=
      updatePerformance_document _ _ _ _ _ _ _ _ _ _ h
    obtain ⟨hid, ht, hda, hv, hci, himg, hde, htl, hact⟩ :=
      performanceDocument_eq_some _ _ _ _ _ _ _ _ _ _ hd
    refine ⟨oid, performance, hc, hf, hst, hs, hid, ht, hda, hv, hci, hde, ?_, ?_, ?_, ?_, ?_⟩
    · intro hno
      have hfalsy : falsy performanceBody.ticketLink = true := (falsy_iff _).2 hno
      rw [htl]
      simp [ticketLinkOrEmpty, hfalsy]
    · intro link hl
      rw [htl, hl]
      by_cases hne : link = ""
      · simp [ticketLinkOrEmpty, falsy, hne]
      · simp [ticketLinkOrEmpty, falsy, hne]
    · rw [hact]; rfl
    · intro filename hu
      rw [hu] at himg
      exact (Option.some.inj himg).symm
    · intro hu
      rw [hu] at himg
      exact (Option.some.inj himg).symm

/-- Claim C15. Every performance a create request saves while its `active` field is absent
or anything but the string `true` has `active = false`, is appended to the store, and is in
neither `upcoming` nor `previous` of the public listing of that store, at any request time;
every member a create request saves has `active = true`. -/
theorem createPerformance_inactive_unless_true (user : JwtPayload) (storage : Storage)
    (newId : String) (store : List Performance) (image : Option UploadedFile)
    (body : PerformanceBody) (store1 : List Performance) (status : Nat) (doc : Performance)
    (hactive : body.active ≠ some "true")
    (hcreated : createPerformance (.next user) storage newId store image body
      = (store1, .document status doc)) :
    doc.active = false ∧ store1 = store ++ [doc]
    ∧ (∀ (parseDate : String → TimeValue) (currentDate : Int),
        doc ∉ (getPerformances parseDate store1 currentDate).upcoming
        ∧ doc ∉ (getPerformances parseDate store1 currentDate).previous)
    ∧ (∀ (parseInt : String → Option Int) (memberId : String) (members : List Member)
        (memberImage : Option UploadedFile) (memberBody : MemberBody)
        (members1 : List Member) (memberStatus : Nat) (member : Member),
        createMember (.next user) storage parseInt memberId members memberImage memberBody
          = (members1, .document memberStatus member) →
        member.active = true ∧ members1 = members ++ [member]) := by
  obtain ⟨filename, _, hd, hs, _⟩ := createPerformance_document _ _ _ _ _ _ _ _ _ hcreated
  have hact : doc.active = false := by
    rw [(performanceDocument_eq_some _ _ _ _ _ _ _ _ _ _ hd).2.2.2.2.2.2.2.2]
    simp [isTrue, hactive]
  refine ⟨hact, hs, ?_, ?_⟩
  · intro parseDate currentDate
    constructor
    · intro h
      have := ((mem_upcoming parseDate store1 currentDate doc).1 h).2.1
      rw [hact] at this
      cases this
    · intro h
      have := ((mem_previous parseDate store1 currentDate doc).1 h).2.1
      rw [hact] at this
      cases this
  · intro parseInt memberId members memberImage memberBody members1 memberStatus member h
    obtain ⟨fn, _, hmd, hms, _⟩ := createMember_document _ _ _ _ _ _ _ _ _ _ h
    exact ⟨(memberDocument_eq_some _ _ _ _ _ _ _ _ _ hmd).2.2.2.2.2.2.2, hms⟩

/-- The claim C15 on an example request with a PNG and no `active` field: the saved
performance, dated 2999-01-01, is inactive and absent from the listing. -/
theorem createPerformance_inactive_unless_true_witness :
    createPerformance (.next exampleJwt.payload) exampleStorage "65f0c0ffee0123456789ab03" []
        (some (exampleUpload "image/png")) (examplePerformanceBody none)
      = ([{ examplePerformance "65f0c0ffee0123456789ab03" "2999-01-01" false with
              image := "/uploads/0b2c4a1e-7d3f-4e5a-9c8b-1f2e3d4c5b6a.jpg" }],
         .document 201
          { examplePerformance "65f0c0ffee0123456789ab03" "2999-01-01" false with
              image := "/uploads/0b2c4a1e-7d3f-4e5a-9c8b-1f2e3d4c5b6a.jpg" })
    ∧ getPerformances exampleParseDate
        [{ examplePerformance "65f0c0ffee0123456789ab03" "2999-01-01" false with
              image := "/uploads/0b2c4a1e-7d3f-4e5a-9c8b-1f2e3d4c5b6a.jpg" }] 1718409600000
      = { upcoming := [], previous := [] }
    ∧ { examplePerformance "65f0c0ffee0123456789ab03" "2999-01-01" false with
          image := "/uploads/0b2c4a1e-7d3f-4e5a-9c8b-1f2e3d4c5b6a.jpg" } ∉
        (getPerformances exampleParseDate
          [{ examplePerformance "65f0c0ffee0123456789ab03" "2999-01-01" false with
              image := "/uploads/0b2c4a1e-7d3f-4e5a-9c8b-1f2e3d4c5b6a.jpg" }]
          1718409600000).upcoming :=
  ⟨by decide, by decide,
    ((createPerformance_inactive_unless_true exampleJwt.payload exampleStorage
      "65f0c0ffee0123456789ab03" [] (some (exampleUpload "image/png"))
      (examplePerformanceBody none) _ 201 _ (by decide) (by decide)).2.2.1
      exampleParseDate 1718409600000).1⟩

end KnightsKhayal
